import Mathlib

/-!
HelloTriangleLegacy: the two triangle programs as call traces.

`HelloTriangle.cpp` and `HelloColorTriangle.cpp` are straight-line programs
that talk to three collaborators (GLFW, GLEW, the OpenGL driver) and to
`std::cout`.  Each `main` is embedded as a function from the answers the
collaborators give (`Env`) to the sequence of calls `main` issues and the
value it returns (`Run`).

Conventions of the embedding:

* every call `main` makes is one `Call` constructor carrying the arguments
  written in the source; a `cout << a << b << endl` statement is
  `Call.cout [a, b]`;
* the floating point literals of the source are all multiples of `0.1`; they
  are recorded in tenths (`-0.5f` is `-5`, `1.0f` is `10`);
* `sizeof(GLfloat)` is a field of `Env`;
* the render loop consumes a script: one list of window events per call of
  `glfwPollEvents`.  When the script is used up and the window is still open
  the run has not returned (`Run.exit = none`).
-/

namespace HelloTriangleLegacy

/-! ## Collaborator types and constants -/

abbrev GLuint := Nat
abbrev GLint := Int
abbrev GLsizei := Int

/-- Symbolic OpenGL enumerants used by the two programs. -/
inductive GLenum
  | GL_VERSION
  | GL_SHADING_LANGUAGE_VERSION
  | GL_VERTEX_SHADER
  | GL_FRAGMENT_SHADER
  | GL_COMPILE_STATUS
  | GL_LINK_STATUS
  | GL_ARRAY_BUFFER
  | GL_STATIC_DRAW
  | GL_FLOAT
  | GL_COLOR_BUFFER_BIT
  | GL_TRIANGLES
  deriving DecidableEq, Repr

open GLenum

/-- Value of `GLFW_KEY_ESCAPE` in `GLFW/glfw3.h`. -/
def GLFW_KEY_ESCAPE : Int := 256
/-- Value of `GLFW_RELEASE` in `GLFW/glfw3.h`. -/
def GLFW_RELEASE : Int := 0
/-- Value of `GLFW_PRESS` in `GLFW/glfw3.h`. -/
def GLFW_PRESS : Int := 1
/-- Value of `GLFW_REPEAT` in `GLFW/glfw3.h`. -/
def GLFW_REPEAT : Int := 2
/-- Value of `GLFW_RESIZABLE` in `GLFW/glfw3.h`. -/
def GLFW_RESIZABLE : Int := 0x00020003
/-- Value of `GL_FALSE`. -/
def GL_FALSE : Int := 0
/-- Value of `GL_TRUE`. -/
def GL_TRUE : Int := 1
/-- Value of `GLEW_OK` in `GL/glew.h`. -/
def GLEW_OK : Nat := 0

/-- The state GLFW keeps for a window, as far as the programs can reach it. -/
structure GLFWwindow where
  width : Int
  height : Int
  title : String
  resizable : Bool
  keyCallbackSet : Bool
  shouldClose : Bool
  deriving DecidableEq, Repr

/-- GLFW: `glfwSetWindowShouldClose(window, value)` stores `value != 0` in the
close flag of the window and changes nothing else. -/
def glfwSetWindowShouldClose (window : GLFWwindow) (value : Int) : GLFWwindow :=
  { window with shouldClose := decide (value ≠ 0) }

/-- GLFW: `glfwWindowShouldClose(window)` reads the close flag. -/
def glfwWindowShouldClose (window : GLFWwindow) : Bool :=
  window.shouldClose

/-- The window `glfwCreateWindow(width, height, title, nullptr, nullptr)` hands
back when it succeeds: the close flag starts out false. -/
def glfwCreateWindow (width height : Int) (title : String) (resizable : Bool) : GLFWwindow :=
  { width := width, height := height, title := title, resizable := resizable,
    keyCallbackSet := false, shouldClose := false }

/-- `key_callback` (HelloTriangle.cpp 309-315, HelloColorTriangle.cpp 302-308;
the two bodies are identical). -/
def key_callback (window : GLFWwindow) (key scancode action mode : Int) : GLFWwindow :=
  if key = GLFW_KEY_ESCAPE ∧ action = GLFW_PRESS then
    glfwSetWindowShouldClose window GL_TRUE
  else
    window

/-- `report_error` (HelloTriangle.cpp 300-306): the text written to `cout`. -/
def report_error (code : Int) (description : String) : String :=
  "GLFW Error: (" ++ toString code ++ ")\n\t" ++ description ++ "\n"

/-- What the windowing system can deliver while `glfwPollEvents` runs: a key
event, passed to the installed key callback, or a close request (the close
button), on which GLFW itself sets the close flag. -/
inductive Event
  | key (key scancode action mode : Int)
  | closeRequest
  deriving DecidableEq, Repr

/-- One event handled inside `glfwPollEvents`, with `key_callback` installed. -/
def deliver (window : GLFWwindow) : Event → GLFWwindow
  | .key k s a m => key_callback window k s a m
  | .closeRequest => { window with shouldClose := true }

/-- GLFW: `glfwPollEvents()` handles the pending events in order. -/
def glfwPollEvents (window : GLFWwindow) (events : List Event) : GLFWwindow :=
  events.foldl deliver window

/-- The calls `main` issues, with the arguments written in the source.  Handles
returned through an out-parameter or a return value are carried on the call
that yields them. -/
inductive Call
  | cout (items : List String)
  | glfwInit
  | glfwSetErrorCallback
  | glfwWindowHint (hint value : Int)
  | glfwCreateWindow (width height : Int) (title : String)
  | glfwTerminate
  | glfwMakeContextCurrent
  | glGetString (name : GLenum)
  | glewInit
  | glfwGetFramebufferSize
  | glViewport (x y : Int) (width height : Int)
  | glfwSetKeyCallback
  | glCreateShader (type : GLenum) (result : GLuint)
  | glShaderSource (shader : GLuint) (count : Int) (source : String)
  | glCompileShader (shader : GLuint)
  | glGetShaderiv (shader : GLuint) (pname : GLenum)
  | glGetShaderInfoLog (shader : GLuint) (bufSize : Int)
  | glCreateProgram (result : GLuint)
  | glBindAttribLocation (program : GLuint) (index : GLuint) (name : String)
  | glAttachShader (program shader : GLuint)
  | glLinkProgram (program : GLuint)
  | glGetProgramiv (program : GLuint) (pname : GLenum)
  | glGetProgramInfoLog (program : GLuint) (bufSize : Int)
  | glDeleteShader (shader : GLuint)
  | glGenVertexArrays (n : Int) (result : GLuint)
  | glGenBuffers (n : Int) (result : GLuint)
  | glBindVertexArray (array : GLuint)
  | glBindBuffer (target : GLenum) (buffer : GLuint)
  | glBufferData (target : GLenum) (size : Nat) (data : List Int) (usage : GLenum)
  | glVertexAttribPointer (index : GLuint) (size : Int) (type : GLenum)
      (normalized : Int) (stride : Nat) (pointer : Nat)
  | glEnableVertexAttribArray (index : GLuint)
  | glfwWindowShouldClose
  | glfwPollEvents
  | glClearColor (red green blue alpha : Int)
  | glClear (mask : GLenum)
  | glUseProgram (program : GLuint)
  | glDrawArrays (mode : GLenum) (first : Int) (count : Int)
  | glfwSwapBuffers
  | glDeleteVertexArrays (n : Int) (array : GLuint)
  | glDeleteBuffers (n : Int) (buffer : GLuint)
  deriving DecidableEq, Repr

/-- The answers of the collaborators in one run. -/
structure Env where
  /-- return value of `glfwInit()` -/
  glfwInit : Int
  /-- whether `glfwCreateWindow` returns a window (not `nullptr`) -/
  windowCreated : Bool
  /-- return value of `glewInit()` -/
  glewInit : Nat
  glVersion : String
  glslVersion : String
  fbWidth : Int
  fbHeight : Int
  /-- handles returned by `glCreateShader` / `glCreateProgram` -/
  vertexShader : GLuint
  fragmentShader : GLuint
  shaderProgram : GLuint
  /-- values written to `success` by the three status queries -/
  vertexStatus : GLint
  fragmentStatus : GLint
  linkStatus : GLint
  /-- info logs the driver holds for the three objects -/
  vertexLog : String
  fragmentLog : String
  programLog : String
  /-- names written by `glGenVertexArrays` / `glGenBuffers` -/
  VAO : GLuint
  VBO : GLuint
  colorsVBO : GLuint
  /-- size in bytes of a float, `sizeof(GLfloat)` -/
  sizeofGLfloat : Nat
  /-- events delivered during the successive calls of `glfwPollEvents` -/
  polls : List (List Event)

/-- Result of a run: the calls issued and the value `main` returned, `none`
when the script of events ended with the render loop still running. -/
structure Run where
  trace : List Call
  exit : Option Int

/-- Text `glGetShaderInfoLog(obj, 512, NULL, infoLog)` leaves in `infoLog`:
at most 511 characters of the log, then the terminator. -/
def infoLog (log : String) : String :=
  String.mk (log.toList.take 511)

/-- `ConfigureGLFW` (HelloTriangle.cpp 282-297, HelloColorTriangle.cpp
275-290). -/
def ConfigureGLFW : List Call :=
  [.glfwWindowHint GLFW_RESIZABLE GL_FALSE]

/-- Body of the `while` loop of `main` (HelloTriangle.cpp 246-271,
HelloColorTriangle.cpp 238-263): the calls of one iteration and the window
state after its `glfwPollEvents`. -/
def loopBody (shaderProgram VAO : GLuint) (window : GLFWwindow) (events : List Event) :
    List Call × GLFWwindow :=
  ([.glfwPollEvents,
    .glClearColor 2 3 3 10,
    .glClear GL_COLOR_BUFFER_BIT,
    .glUseProgram shaderProgram,
    .glBindVertexArray VAO,
    .glDrawArrays GL_TRIANGLES 0 3,
    .glBindVertexArray 0,
    .glfwSwapBuffers],
   glfwPollEvents window events)

/-- The loop `while(!glfwWindowShouldClose(window)) { ... }` of `main`, run
against a script of polls.  Each evaluation of the loop condition is recorded
as `Call.glfwWindowShouldClose`.  The result is the calls issued and the window
on leaving the loop, or `none` when the script ends with the loop running. -/
def renderLoop (shaderProgram VAO : GLuint) :
    GLFWwindow → List (List Event) → List Call × Option GLFWwindow
  | window, [] =>
    ([.glfwWindowShouldClose],
     if glfwWindowShouldClose window then some window else none)
  | window, events :: rest =>
    if glfwWindowShouldClose window then
      ([.glfwWindowShouldClose], some window)
    else
      let body := loopBody shaderProgram VAO window events
      let later := renderLoop shaderProgram VAO body.2 rest
      (.glfwWindowShouldClose :: body.1 ++ later.1, later.2)

/-! ## HelloTriangle.cpp -/

namespace HelloTriangle

/-- `vertexShaderSource` (HelloTriangle.cpp 77-86). -/
def vertexShaderSource : String :=
  "#if __VERSION__ >= 140\n" ++
  "    in vec3 position;\n" ++
  "#else\n" ++
  "    attribute vec3 position;\n" ++
  "#endif\n" ++
  "\n" ++
  "void main()\n" ++
  "\x7b\n" ++
  "    gl_Position = vec4(position, 1.0);\n" ++
  "\x7d\n"

/-- `fragmentShaderSource` (HelloTriangle.cpp 88-101). -/
def fragmentShaderSource : String :=
  "#if __VERSION__ >= 140\n" ++
  "    varying out vec4 out_color;\n" ++
  "#endif\n" ++
  "\n" ++
  "void main()\n" ++
  "\x7b\n" ++
  "#if __VERSION__ >= 140\n" ++
  "    out_color = vec4(1.0f, 0.5f, 0.2f,\n" ++
  "                     1.0f);\n" ++
  "#else\n" ++
  "    gl_FragColor = vec4(1.0, 0.5, 0.2,\n" ++
  "                        1.0);\n" ++
  "#endif\n" ++
  "\x7d\n"

/-- The array `vertices` of `main` (HelloTriangle.cpp 210-212), in tenths. -/
def vertices : List Int :=
  [-5, -5, 0,
    5, -5, 0,
    0,  5, 0]

/-- Lines 158-207 of `main` (HelloTriangle.cpp): compile the two stages, link
the program, delete the stage objects. -/
def buildShaderProgram (env : Env) : List Call :=
  let vertexShader := env.vertexShader
  let vertexStage :=
    [Call.glCreateShader GL_VERTEX_SHADER vertexShader,
     .glShaderSource vertexShader 1 vertexShaderSource,
     .glCompileShader vertexShader,
     .glGetShaderiv vertexShader GL_COMPILE_STATUS] ++
    (if env.vertexStatus = 0 then
      [Call.glGetShaderInfoLog vertexShader 512,
       .cout ["ERROR::SHADER::VERTEX::COMPILATION_FAILED\n", infoLog env.vertexLog]]
     else [])
  let fragmentShader := env.fragmentShader
  let fragmentStage :=
    [Call.glCreateShader GL_FRAGMENT_SHADER fragmentShader,
     .glShaderSource fragmentShader 1 fragmentShaderSource,
     .glCompileShader fragmentShader,
     .glGetShaderiv fragmentShader GL_COMPILE_STATUS] ++
    (if env.fragmentStatus = 0 then
      [Call.glGetShaderInfoLog fragmentShader 512,
       .cout ["ERROR::SHADER::FRAGMENT::COMPILATION_FAILED\n", infoLog env.fragmentLog]]
     else [])
  let shaderProgram := env.shaderProgram
  let link :=
    [Call.glCreateProgram shaderProgram,
     .glAttachShader shaderProgram vertexShader,
     .glAttachShader shaderProgram fragmentShader,
     .glLinkProgram shaderProgram,
     .glGetProgramiv shaderProgram GL_LINK_STATUS] ++
    (if env.linkStatus = 0 then
      [Call.glGetProgramInfoLog shaderProgram 512,
       .cout ["ERROR::SHADER::PROGRAM::LINKING_FAILED\n", infoLog env.programLog]]
     else [])
  vertexStage ++ fragmentStage ++ link ++
    [.glDeleteShader vertexShader,
     .glDeleteShader fragmentShader]

/-- Lines 209-242 of `main` (HelloTriangle.cpp): generate the vertex array
object and the buffer, upload `vertices`, declare slot 0, unbind. -/
def uploadGeometry (env : Env) : List Call :=
  let VAO := env.VAO
  let VBO := env.VBO
  [.glGenVertexArrays 1 VAO,
   .glGenBuffers 1 VBO,
   .glBindVertexArray VAO,
   .glBindBuffer GL_ARRAY_BUFFER VBO,
   .glBufferData GL_ARRAY_BUFFER (vertices.length * env.sizeofGLfloat) vertices GL_STATIC_DRAW,
   .glVertexAttribPointer 0 3 GL_FLOAT GL_FALSE (3 * env.sizeofGLfloat) 0,
   .glEnableVertexAttribArray 0,
   .glBindBuffer GL_ARRAY_BUFFER 0,
   .glBindVertexArray 0]

/-- Lines 273-278 of `main` (HelloTriangle.cpp): the calls after the loop. -/
def shutdown (env : Env) : List Call :=
  [.glDeleteVertexArrays 1 env.VAO,
   .glDeleteBuffers 1 env.VBO,
   .glfwTerminate,
   .cout ["Terminated GLFW..."]]

/-- `main` of HelloTriangle.cpp (103-280).  The straight-line stretches 158-207,
209-242 and 273-278 are `buildShaderProgram`, `uploadGeometry` and `shutdown`;
the `while` loop is `renderLoop`. -/
def main (env : Env) : Run :=
  if env.glfwInit = 0 then
    { trace := [.glfwInit, .cout ["GLFW Initialization Failed!!"]], exit := some (-1) }
  else
    let init :=
      [Call.glfwInit, .cout ["Initialized GLFW..."],
       .glfwSetErrorCallback, .cout ["Set GLFW Error Callback..."]] ++
      ConfigureGLFW ++
      [.cout ["Initialized GLFW Window Hints..."],
       .glfwCreateWindow 800 600 "Hello OpenGL"]
    if env.windowCreated = false then
      { trace := init ++ [.cout ["Failed to create GLFW window"], .glfwTerminate],
        exit := some (-1) }
    else
      let window := glfwCreateWindow 800 600 "Hello OpenGL" false
      let context :=
        [Call.cout ["Created GLFW window"],
         .glfwMakeContextCurrent,
         .glGetString GL_VERSION,
         .cout ["OpenGL version supported by this platform: ", env.glVersion],
         .glGetString GL_SHADING_LANGUAGE_VERSION,
         .cout ["GLSL version supported by this platform: ", env.glslVersion],
         .glewInit]
      if env.glewInit ≠ GLEW_OK then
        { trace := init ++ context ++ [.cout ["Failed to initialize GLEW"]],
          exit := some (-1) }
      else
        let viewport :=
          [Call.cout ["Initialized GLEW..."],
           .glfwGetFramebufferSize,
           .glViewport 0 0 env.fbWidth env.fbHeight,
           .cout ["Set the Viewport..."],
           .glfwSetKeyCallback]
        let window := { window with keyCallbackSet := true }
        let setup := init ++ context ++ viewport ++ buildShaderProgram env ++ uploadGeometry env
        let loop := renderLoop env.shaderProgram env.VAO window env.polls
        match loop.2 with
        | none => { trace := setup ++ loop.1, exit := none }
        | some _ => { trace := setup ++ loop.1 ++ shutdown env, exit := some 0 }

end HelloTriangle

/-! ## HelloColorTriangle.cpp -/

namespace HelloColorTriangle

/-- `vertexShaderSource` (HelloColorTriangle.cpp 45-59). -/
def vertexShaderSource : String :=
  "#if __VERSION__ >= 140\n" ++
  "    in vec3 position;\n" ++
  "    in vec3 vertex_color;\n" ++
  "    out vec3 color;\n" ++
  "#else\n" ++
  "    attribute vec3 position;\n" ++
  "    attribute vec3 vertex_color;\n" ++
  "    varying vec3 color;\n" ++
  "#endif\n" ++
  "\n" ++
  "void main()\n" ++
  "\x7b\n" ++
  "    color = vertex_color;\n" ++
  "    gl_Position = vec4(position, 1.0);\n" ++
  "\x7d\n"

/-- `fragmentShaderSource` (HelloColorTriangle.cpp 61-75). -/
def fragmentShaderSource : String :=
  "#if __VERSION__ >= 140\n" ++
  "    in vec3 color;\n" ++
  "    varying out vec4 out_color;\n" ++
  "#else\n" ++
  "    varying vec3 color;\n" ++
  "#endif\n" ++
  "\n" ++
  "void main()\n" ++
  "\x7b\n" ++
  "#if __VERSION__ >= 140\n" ++
  "    out_color = vec4(color, 1.0f);\n" ++
  "#else\n" ++
  "    gl_FragColor = vec4(color, 1.0);\n" ++
  "#endif\n" ++
  "\x7d\n"

/-- The array `vertices` of `main` (HelloColorTriangle.cpp 181-183), in tenths. -/
def vertices : List Int :=
  [-5, -5, 0,
    5, -5, 0,
    0,  5, 0]

/-- The array `colors` of `main` (HelloColorTriangle.cpp 185-187), in tenths. -/
def colors : List Int :=
  [10, 0, 0,
   0, 10, 0,
   0, 0, 10]

/-- Lines 121-178 of `main` (HelloColorTriangle.cpp): compile the two stages,
bind the attribute locations, link the program, delete the stage objects. -/
def buildShaderProgram (env : Env) : List Call :=
  let vertexShader := env.vertexShader
  let vertexStage :=
    [Call.glCreateShader GL_VERTEX_SHADER vertexShader,
     .glShaderSource vertexShader 1 vertexShaderSource,
     .glCompileShader vertexShader,
     .glGetShaderiv vertexShader GL_COMPILE_STATUS] ++
    (if env.vertexStatus = 0 then
      [Call.glGetShaderInfoLog vertexShader 512,
       .cout ["ERROR::SHADER::VERTEX::COMPILATION_FAILED\n", infoLog env.vertexLog]]
     else [])
  let fragmentShader := env.fragmentShader
  let fragmentStage :=
    [Call.glCreateShader GL_FRAGMENT_SHADER fragmentShader,
     .glShaderSource fragmentShader 1 fragmentShaderSource,
     .glCompileShader fragmentShader,
     .glGetShaderiv fragmentShader GL_COMPILE_STATUS] ++
    (if env.fragmentStatus = 0 then
      [Call.glGetShaderInfoLog fragmentShader 512,
       .cout ["ERROR::SHADER::FRAGMENT::COMPILATION_FAILED\n", infoLog env.fragmentLog]]
     else [])
  let shaderProgram := env.shaderProgram
  let link :=
    [Call.glCreateProgram shaderProgram,
     .glBindAttribLocation shaderProgram 0 "position",
     .glBindAttribLocation shaderProgram 1 "color",
     .glAttachShader shaderProgram vertexShader,
     .glAttachShader shaderProgram fragmentShader,
     .glLinkProgram shaderProgram,
     .glGetProgramiv shaderProgram GL_LINK_STATUS] ++
    (if env.linkStatus = 0 then
      [Call.glGetProgramInfoLog shaderProgram 512,
       .cout ["ERROR::SHADER::PROGRAM::LINKING_FAILED\n", infoLog env.programLog]]
     else [])
  vertexStage ++ fragmentStage ++ link ++
    [.glDeleteShader vertexShader,
     .glDeleteShader fragmentShader]

/-- Lines 180-234 of `main` (HelloColorTriangle.cpp): generate the vertex array
object and the two buffers, upload `vertices` and `colors`, declare slots 0
and 1, enable them, unbind. -/
def uploadGeometry (env : Env) : List Call :=
  let VAO := env.VAO
  let VBO := env.VBO
  let colorsVBO := env.colorsVBO
  [.glGenVertexArrays 1 VAO,
   .glGenBuffers 1 VBO,
   .glGenBuffers 1 colorsVBO,
   .glBindVertexArray VAO,
   .glBindBuffer GL_ARRAY_BUFFER VBO,
   .glBufferData GL_ARRAY_BUFFER (vertices.length * env.sizeofGLfloat) vertices GL_STATIC_DRAW,
   .glVertexAttribPointer 0 3 GL_FLOAT GL_FALSE (3 * env.sizeofGLfloat) 0,
   .glBindBuffer GL_ARRAY_BUFFER colorsVBO,
   .glBufferData GL_ARRAY_BUFFER (colors.length * env.sizeofGLfloat) colors GL_STATIC_DRAW,
   .glVertexAttribPointer 1 3 GL_FLOAT GL_FALSE (3 * env.sizeofGLfloat) 0,
   .glEnableVertexAttribArray 0,
   .glEnableVertexAttribArray 1,
   .glBindBuffer GL_ARRAY_BUFFER 0,
   .glBindVertexArray 0]

/-- Lines 265-271 of `main` (HelloColorTriangle.cpp): the calls after the
loop. -/
def shutdown (env : Env) : List Call :=
  [.glDeleteVertexArrays 1 env.VAO,
   .glDeleteBuffers 1 env.VBO,
   .glDeleteBuffers 1 env.colorsVBO,
   .glfwTerminate,
   .cout ["Terminated GLFW..."]]

/-- `main` of HelloColorTriangle.cpp (77-273).  The straight-line stretches
121-178, 180-234 and 265-271 are `buildShaderProgram`, `uploadGeometry` and
`shutdown`; the `while` loop is `renderLoop`. -/
def main (env : Env) : Run :=
  if env.glfwInit = 0 then
    { trace := [.glfwInit, .cout ["GLFW Initialization Failed!!"]], exit := some (-1) }
  else
    let init :=
      [Call.glfwInit, .glfwSetErrorCallback] ++
      ConfigureGLFW ++
      [.glfwCreateWindow 800 600 "OpenGL Color Triangle"]
    if env.windowCreated = false then
      { trace := init ++ [.cout ["Failed to create GLFW window"], .glfwTerminate],
        exit := some (-1) }
    else
      let window := glfwCreateWindow 800 600 "OpenGL Color Triangle" false
      let context := [Call.glfwMakeContextCurrent, .glewInit]
      if env.glewInit ≠ GLEW_OK then
        { trace := init ++ context ++ [.cout ["Failed to initialize GLEW"]],
          exit := some (-1) }
      else
        let viewport :=
          [Call.glGetString GL_VERSION,
           .cout ["OpenGL version supported by this platform: ", env.glVersion],
           .glGetString GL_SHADING_LANGUAGE_VERSION,
           .cout ["GLSL version supported by this platform: ", env.glslVersion],
           .glfwGetFramebufferSize,
           .glViewport 0 0 env.fbWidth env.fbHeight,
           .cout ["Set the Viewport..."],
           .glfwSetKeyCallback]
        let window := { window with keyCallbackSet := true }
        let setup := init ++ context ++ viewport ++ buildShaderProgram env ++ uploadGeometry env
        let loop := renderLoop env.shaderProgram env.VAO window env.polls
        match loop.2 with
        | none => { trace := setup ++ loop.1, exit := none }
        | some _ => { trace := setup ++ loop.1 ++ shutdown env, exit := some 0 }

end HelloColorTriangle

/-! ## Specification vocabulary -/

/-- One of the three initialization steps fails: `glfwInit()` returns 0,
`glfwCreateWindow` returns `nullptr`, or `glewInit()` is not `GLEW_OK`. -/
def initFails (env : Env) : Prop :=
  env.glfwInit = 0 ∨ env.windowCreated = false ∨ env.glewInit ≠ GLEW_OK

instance (env : Env) : Decidable (initFails env) := by
  unfold initFails; infer_instance

/-- An event that makes the close flag true: a press of the escape key (through
`key_callback`) or a close request of the windowing system. -/
def Event.closes : Event → Bool
  | .key k _ a _ => decide (k = GLFW_KEY_ESCAPE ∧ a = GLFW_PRESS)
  | .closeRequest => true

/-- The script of polls contains an event that sets the close flag. -/
def closesEventually (polls : List (List Event)) : Bool :=
  polls.any (fun events => events.any Event.closes)

/-- The window as `main` of HelloTriangle.cpp holds it on reaching the loop. -/
def HelloTriangle.loopWindow : GLFWwindow :=
  { glfwCreateWindow 800 600 "Hello OpenGL" false with keyCallbackSet := true }

/-- The window as `main` of HelloColorTriangle.cpp holds it on reaching the
loop. -/
def HelloColorTriangle.loopWindow : GLFWwindow :=
  { glfwCreateWindow 800 600 "OpenGL Color Triangle" false with keyCallbackSet := true }

/-- The calls of lines 104-156 of HelloTriangle.cpp on the path where the three
initialization steps succeed (shown equal to what `main` issues in
`triangle_main_of_init_ok`). -/
def HelloTriangle.startup (env : Env) : List Call :=
  [.glfwInit, .cout ["Initialized GLFW..."],
   .glfwSetErrorCallback, .cout ["Set GLFW Error Callback..."],
   .glfwWindowHint GLFW_RESIZABLE GL_FALSE,
   .cout ["Initialized GLFW Window Hints..."],
   .glfwCreateWindow 800 600 "Hello OpenGL",
   .cout ["Created GLFW window"],
   .glfwMakeContextCurrent,
   .glGetString GL_VERSION,
   .cout ["OpenGL version supported by this platform: ", env.glVersion],
   .glGetString GL_SHADING_LANGUAGE_VERSION,
   .cout ["GLSL version supported by this platform: ", env.glslVersion],
   .glewInit,
   .cout ["Initialized GLEW..."],
   .glfwGetFramebufferSize,
   .glViewport 0 0 env.fbWidth env.fbHeight,
   .cout ["Set the Viewport..."],
   .glfwSetKeyCallback]

/-- The calls of lines 78-119 of HelloColorTriangle.cpp on the path where the
three initialization steps succeed (shown equal to what `main` issues in
`gradient_main_of_init_ok`). -/
def HelloColorTriangle.startup (env : Env) : List Call :=
  [.glfwInit, .glfwSetErrorCallback,
   .glfwWindowHint GLFW_RESIZABLE GL_FALSE,
   .glfwCreateWindow 800 600 "OpenGL Color Triangle",
   .glfwMakeContextCurrent,
   .glewInit,
   .glGetString GL_VERSION,
   .cout ["OpenGL version supported by this platform: ", env.glVersion],
   .glGetString GL_SHADING_LANGUAGE_VERSION,
   .cout ["GLSL version supported by this platform: ", env.glslVersion],
   .glfwGetFramebufferSize,
   .glViewport 0 0 env.fbWidth env.fbHeight,
   .cout ["Set the Viewport..."],
   .glfwSetKeyCallback]

/-- Pieces of a character list between occurrences of `sep`. -/
def splitAt (sep : Char) : List Char → List (List Char)
  | [] => [[]]
  | c :: cs =>
    if c = sep then [] :: splitAt sep cs
    else
      match splitAt sep cs with
      | [] => [[c]]
      | w :: ws => (c :: w) :: ws

/-- GLSL, as far as the shader sources of this repository use it: a line made
of a storage qualifier, a type and a name followed by `;` declares a global
variable with that qualifier.  The names declared with one of `qualifiers`, in
source order (both branches of `#if` are read). -/
def declaredWith (qualifiers : List String) (source : String) : List String :=
  (splitAt '\n' source.toList).filterMap fun line =>
    match (splitAt ' ' line).filter (fun w => !w.isEmpty) with
    | [q, _, name] =>
      if String.mk q ∈ qualifiers then some (String.mk (name.filter (fun c => c != ';')))
      else none
    | _ => none

/-- Names of the per-vertex inputs a vertex shader source declares (`in` in
GLSL 1.40 and later, `attribute` before). -/
def vertexInputs (source : String) : List String :=
  declaredWith ["in", "attribute"] source

/-- Names of the outputs a vertex shader source declares (`out` in GLSL 1.40
and later, `varying` before). -/
def vertexOutputs (source : String) : List String :=
  declaredWith ["out", "varying"] source

/-- The `(index, name)` pairs of the `glBindAttribLocation` calls of a trace, in
order. -/
def attribBindings (trace : List Call) : List (GLuint × String) :=
  trace.filterMap fun
    | .glBindAttribLocation _ index name => some (index, name)
    | _ => none

/-- Whether a call is `glLinkProgram`. -/
def Call.isLink : Call → Bool
  | .glLinkProgram _ => true
  | _ => false

/-- A run in which every step succeeds; the user presses and releases `A`
during the first frame and presses escape during the second. -/
def sampleEnv : Env :=
  { glfwInit := 1, windowCreated := true, glewInit := 0,
    glVersion := "2.1", glslVersion := "1.20", fbWidth := 800, fbHeight := 600,
    vertexShader := 1, fragmentShader := 2, shaderProgram := 3,
    vertexStatus := 1, fragmentStatus := 1, linkStatus := 1,
    vertexLog := "", fragmentLog := "", programLog := "",
    VAO := 1, VBO := 1, colorsVBO := 2,
    sizeofGLfloat := 4,
    polls := [[.key 65 38 1 0, .key 65 38 0 0], [.key 256 9 1 0], [.key 66 56 1 0]] }

/-- The calls the specification lists for one frame, in its order: poll events,
set the clear color and clear, use the program, bind the vertex array object,
draw 3 vertices as triangles, unbind, swap buffers. -/
def frameCalls (shaderProgram VAO : GLuint) : List Call :=
  [.glfwPollEvents,
   .glClearColor 2 3 3 10,
   .glClear GL_COLOR_BUFFER_BIT,
   .glUseProgram shaderProgram,
   .glBindVertexArray VAO,
   .glDrawArrays GL_TRIANGLES 0 3,
   .glBindVertexArray 0,
   .glfwSwapBuffers]

/-- The calls of `n` passes through the `while` loop: each pass is one
evaluation of the loop condition followed by one frame. -/
def passes (n : Nat) (shaderProgram VAO : GLuint) : List Call :=
  (List.replicate n (Call.glfwWindowShouldClose :: frameCalls shaderProgram VAO)).flatten

/-- Whether a call is a draw call. -/
def Call.isDraw : Call → Bool
  | .glDrawArrays _ _ _ => true
  | _ => false

/-- Calls that belong to the render loop: the loop condition, polling,
clearing, program use, drawing and presenting. -/
def Call.isLoopCall : Call → Bool
  | .glfwWindowShouldClose => true
  | .glfwPollEvents => true
  | .glClearColor _ _ _ _ => true
  | .glClear _ => true
  | .glUseProgram _ => true
  | .glDrawArrays _ _ _ => true
  | .glfwSwapBuffers => true
  | _ => false

/-- A named GL object of one of the two kinds the programs generate. -/
inductive Resource
  | vertexArray (name : GLuint)
  | buffer (name : GLuint)
  deriving DecidableEq, Repr

/-- The objects generated by the `glGenVertexArrays` / `glGenBuffers` calls of a
trace, in order. -/
def generated (trace : List Call) : List Resource :=
  trace.filterMap fun
    | .glGenVertexArrays _ name => some (.vertexArray name)
    | .glGenBuffers _ name => some (.buffer name)
    | _ => none

/-- The objects deleted by the `glDeleteVertexArrays` / `glDeleteBuffers` calls
of a trace, in order. -/
def deleted (trace : List Call) : List Resource :=
  trace.filterMap fun
    | .glDeleteVertexArrays _ name => some (.vertexArray name)
    | .glDeleteBuffers _ name => some (.buffer name)
    | _ => none

/-- Whether a call retrieves an info log. -/
def Call.isLogRetrieval : Call → Bool
  | .glGetShaderInfoLog _ _ => true
  | .glGetProgramInfoLog _ _ => true
  | _ => false

/-- Whether a call is a `cout` statement that opens with one of the three
shader diagnostics. -/
def Call.isShaderDiagnostic : Call → Bool
  | .cout (header :: _) =>
    decide (header ∈ ["ERROR::SHADER::VERTEX::COMPILATION_FAILED\n",
      "ERROR::SHADER::FRAGMENT::COMPILATION_FAILED\n",
      "ERROR::SHADER::PROGRAM::LINKING_FAILED\n"])
  | _ => false

/-- The same run with the driver reporting success (`GL_TRUE`) for both
compilations and for the link. -/
def withAllStatusesTrue (env : Env) : Env :=
  { env with vertexStatus := 1, fragmentStatus := 1, linkStatus := 1 }

/-- One diagnostic for each of the three steps whose status is false (zero), in
the order vertex compilation, fragment compilation, link. -/
def expectedDiagnostics (env : Env) : List Call :=
  (if env.vertexStatus = 0 then
    [.cout ["ERROR::SHADER::VERTEX::COMPILATION_FAILED\n", infoLog env.vertexLog]]
   else []) ++
  (if env.fragmentStatus = 0 then
    [.cout ["ERROR::SHADER::FRAGMENT::COMPILATION_FAILED\n", infoLog env.fragmentLog]]
   else []) ++
  (if env.linkStatus = 0 then
    [.cout ["ERROR::SHADER::PROGRAM::LINKING_FAILED\n", infoLog env.programLog]]
   else [])

/-- One log retrieval for each of the three steps whose status is false (zero),
in the order vertex compilation, fragment compilation, link. -/
def expectedLogRetrievals (env : Env) : List Call :=
  (if env.vertexStatus = 0 then [.glGetShaderInfoLog env.vertexShader 512] else []) ++
  (if env.fragmentStatus = 0 then [.glGetShaderInfoLog env.fragmentShader 512] else []) ++
  (if env.linkStatus = 0 then [.glGetProgramInfoLog env.shaderProgram 512] else [])

/-- A run in which the vertex shader does not compile and the program does not
link; the user closes the window during the first frame. -/
def brokenShaderEnv : Env :=
  { sampleEnv with
    vertexStatus := 0, linkStatus := 0,
    vertexLog := "0(3) : error C0000: syntax error", programLog := "link failed",
    polls := [[.closeRequest]] }

/-- A run in which `glfwCreateWindow` returns `nullptr`. -/
def noWindowEnv : Env :=
  { sampleEnv with windowCreated := false }

/-- Calls that `main` issues while acquiring the window and the context, up to
and including `glewInit`, together with `cout` and `glfwTerminate`.  Every
other call (shader, program, buffer, vertex array, viewport, key callback and
render loop calls) comes after initialization in the source. -/
def Call.isInitCall : Call → Bool
  | .cout _ => true
  | .glfwInit => true
  | .glfwSetErrorCallback => true
  | .glfwWindowHint _ _ => true
  | .glfwCreateWindow _ _ _ => true
  | .glfwTerminate => true
  | .glfwMakeContextCurrent => true
  | .glGetString _ => true
  | .glewInit => true
  | _ => false

/-- The three diagnostics of a failed initialization. -/
def initDiagnostics : List String :=
  ["GLFW Initialization Failed!!", "Failed to create GLFW window", "Failed to initialize GLEW"]

/-- A run in which every step succeeds, the first frame sees no closing event
and the escape key is pressed during the second poll; a third poll is scripted
but never reached. -/
def escapeEnv : Env :=
  { sampleEnv with
    polls := [[.key 65 38 1 0], [.key 65 38 0 0, .key 256 9 1 0], [.key 66 56 1 0]] }

/-- The part of the OpenGL context state that decides which buffer a layout
declaration captures: the bound vertex array object, the buffer bound to
`GL_ARRAY_BUFFER`, and the buffer and data of the latest `glBufferData`. -/
structure GLState where
  vertexArrayBinding : GLuint
  arrayBufferBinding : GLuint
  lastUpload : Option (GLuint × List Int)
  deriving DecidableEq, Repr

/-- The state of a fresh context: nothing bound, nothing uploaded. -/
def GLState.initial : GLState :=
  { vertexArrayBinding := 0, arrayBufferBinding := 0, lastUpload := none }

/-- OpenGL: effect of one call on the bindings.  `glBindVertexArray` and
`glBindBuffer(GL_ARRAY_BUFFER, _)` set the binding; `glBufferData` on
`GL_ARRAY_BUFFER` fills the buffer currently bound there. -/
def glStep (state : GLState) : Call → GLState
  | .glBindVertexArray array => { state with vertexArrayBinding := array }
  | .glBindBuffer target buffer =>
    if target = GL_ARRAY_BUFFER then { state with arrayBufferBinding := buffer } else state
  | .glBufferData target _ data _ =>
    if target = GL_ARRAY_BUFFER then
      { state with lastUpload := some (state.arrayBufferBinding, data) }
    else state
  | _ => state

/-- Each call of a trace paired with the context state in which it is issued. -/
def observe : GLState → List Call → List (Call × GLState)
  | _, [] => []
  | state, c :: rest => (c, state) :: observe (glStep state c) rest

/-- Whether a call is one of the geometry upload steps: binding a buffer,
filling it, declaring a slot layout, enabling a slot. -/
def Call.isUploadStep : Call → Bool
  | .glBindBuffer _ _ => true
  | .glBufferData _ _ _ _ => true
  | .glVertexAttribPointer _ _ _ _ _ _ => true
  | .glEnableVertexAttribArray _ => true
  | _ => false

/-- The upload steps of a trace, in order, each with the context state in which
it is issued, starting from a fresh context. -/
def uploadSteps (trace : List Call) : List (Call × GLState) :=
  (observe GLState.initial trace).filter (fun p => p.1.isUploadStep)

/-- The upload steps the specification prescribes for HelloTriangle, each with
the context state it must be issued in.  Slot 0: bind the position buffer,
copy all 9 floats of `vertices` with the static-draw hint, declare the layout
(3 floats, not normalized, stride `3 * sizeof(GLfloat)`, offset 0) while the
position buffer is bound and holds `vertices`, enable the slot; then unbind.
The vertex array object is bound at every step. -/
def HelloTriangle.expectedUploadSteps (env : Env) : List (Call × GLState) :=
  [(.glBindBuffer GL_ARRAY_BUFFER env.VBO,
      { vertexArrayBinding := env.VAO, arrayBufferBinding := 0, lastUpload := none }),
   (.glBufferData GL_ARRAY_BUFFER (9 * env.sizeofGLfloat) HelloTriangle.vertices
        GL_STATIC_DRAW,
      { vertexArrayBinding := env.VAO, arrayBufferBinding := env.VBO, lastUpload := none }),
   (.glVertexAttribPointer 0 3 GL_FLOAT GL_FALSE (3 * env.sizeofGLfloat) 0,
      { vertexArrayBinding := env.VAO, arrayBufferBinding := env.VBO,
        lastUpload := some (env.VBO, HelloTriangle.vertices) }),
   (.glEnableVertexAttribArray 0,
      { vertexArrayBinding := env.VAO, arrayBufferBinding := env.VBO,
        lastUpload := some (env.VBO, HelloTriangle.vertices) }),
   (.glBindBuffer GL_ARRAY_BUFFER 0,
      { vertexArrayBinding := env.VAO, arrayBufferBinding := env.VBO,
        lastUpload := some (env.VBO, HelloTriangle.vertices) })]

/-- The upload steps the specification prescribes for HelloColorTriangle, each
with the context state it must be issued in.  Slot 0 as in HelloTriangle; slot
1: bind the color buffer, copy all 9 floats of `colors` with the static-draw
hint, declare the layout (3 floats, not normalized, stride
`3 * sizeof(GLfloat)`, offset 0) while the color buffer is bound and holds
`colors`; then enable slots 0 and 1 and unbind.  The vertex array object is
bound at every step. -/
def HelloColorTriangle.expectedUploadSteps (env : Env) : List (Call × GLState) :=
  [(.glBindBuffer GL_ARRAY_BUFFER env.VBO,
      { vertexArrayBinding := env.VAO, arrayBufferBinding := 0, lastUpload := none }),
   (.glBufferData GL_ARRAY_BUFFER (9 * env.sizeofGLfloat) HelloColorTriangle.vertices
        GL_STATIC_DRAW,
      { vertexArrayBinding := env.VAO, arrayBufferBinding := env.VBO, lastUpload := none }),
   (.glVertexAttribPointer 0 3 GL_FLOAT GL_FALSE (3 * env.sizeofGLfloat) 0,
      { vertexArrayBinding := env.VAO, arrayBufferBinding := env.VBO,
        lastUpload := some (env.VBO, HelloColorTriangle.vertices) }),
   (.glBindBuffer GL_ARRAY_BUFFER env.colorsVBO,
      { vertexArrayBinding := env.VAO, arrayBufferBinding := env.VBO,
        lastUpload := some (env.VBO, HelloColorTriangle.vertices) }),
   (.glBufferData GL_ARRAY_BUFFER (9 * env.sizeofGLfloat) HelloColorTriangle.colors
        GL_STATIC_DRAW,
      { vertexArrayBinding := env.VAO, arrayBufferBinding := env.colorsVBO,
        lastUpload := some (env.VBO, HelloColorTriangle.vertices) }),
   (.glVertexAttribPointer 1 3 GL_FLOAT GL_FALSE (3 * env.sizeofGLfloat) 0,
      { vertexArrayBinding := env.VAO, arrayBufferBinding := env.colorsVBO,
        lastUpload := some (env.colorsVBO, HelloColorTriangle.colors) }),
   (.glEnableVertexAttribArray 0,
      { vertexArrayBinding := env.VAO, arrayBufferBinding := env.colorsVBO,
        lastUpload := some (env.colorsVBO, HelloColorTriangle.colors) }),
   (.glEnableVertexAttribArray 1,
      { vertexArrayBinding := env.VAO, arrayBufferBinding := env.colorsVBO,
        lastUpload := some (env.colorsVBO, HelloColorTriangle.colors) }),
   (.glBindBuffer GL_ARRAY_BUFFER 0,
      { vertexArrayBinding := env.VAO, arrayBufferBinding := env.colorsVBO,
        lastUpload := some (env.colorsVBO, HelloColorTriangle.colors) })]

/-- Whether a call declares the layout of a slot. -/
def Call.isLayoutDeclaration : Call → Bool
  | .glVertexAttribPointer _ _ _ _ _ _ => true
  | _ => false

/-- Whether a call yields a shader-stage object or takes one as an argument. -/
def Call.usesShaderStage : Call → Bool
  | .glCreateShader _ _ => true
  | .glShaderSource _ _ _ => true
  | .glCompileShader _ => true
  | .glGetShaderiv _ _ => true
  | .glGetShaderInfoLog _ _ => true
  | .glAttachShader _ _ => true
  | .glDeleteShader _ => true
  | _ => false

/-- The shader-stage objects created by the `glCreateShader` calls of a trace,
in order. -/
def createdShaders (trace : List Call) : List GLuint :=
  trace.filterMap fun
    | .glCreateShader _ shader => some shader
    | _ => none

/-- The shader-stage objects deleted by the `glDeleteShader` calls of a trace,
in order. -/
def deletedShaders (trace : List Call) : List GLuint :=
  trace.filterMap fun
    | .glDeleteShader shader => some shader
    | _ => none

/-- What one `glVertexAttribPointer` call records for a slot of the bound vertex
array object: the buffer bound to `GL_ARRAY_BUFFER` at the call and the
interpretation passed in the arguments. -/
structure Layout where
  buffer : GLuint
  size : Int
  type : GLenum
  normalized : Int
  stride : Nat
  pointer : Nat
  deriving DecidableEq, Repr

/-- The vertex data a draw call reads through a vertex array object: the
buffer data stores (buffer, size in bytes, contents; latest upload first), the
slot layouts (vertex array object, slot, layout; latest declaration first) and
the enabled slots (vertex array object, slot). -/
structure VertexData where
  store : List (GLuint × Nat × List Int)
  layouts : List (GLuint × GLuint × Layout)
  enabled : List (GLuint × GLuint)
  deriving DecidableEq, Repr

/-- The OpenGL context as far as vertex data goes: the bindings and the
objects. -/
structure GLContext where
  bindings : GLState
  data : VertexData
  deriving DecidableEq, Repr

/-- A fresh context: nothing bound, no data store, no layout, no slot enabled. -/
def GLContext.initial : GLContext :=
  { bindings := GLState.initial, data := { store := [], layouts := [], enabled := [] } }

/-- OpenGL: effect of one call on the vertex data, given the bindings in which
it is issued.  `glBufferData` on `GL_ARRAY_BUFFER` gives the bound buffer a new
data store; `glVertexAttribPointer` records, for the slot of the bound vertex
array object, the buffer bound to `GL_ARRAY_BUFFER` and the layout;
`glEnableVertexAttribArray` enables the slot of the bound vertex array object;
`glDeleteBuffers` and `glDeleteVertexArrays` discard the object.  No other call
of the two programs changes vertex data. -/
def vertexDataStep (bindings : GLState) (data : VertexData) : Call → VertexData
  | .glBufferData target size contents _ =>
    if target = GL_ARRAY_BUFFER then
      { data with store := (bindings.arrayBufferBinding, size, contents) :: data.store }
    else data
  | .glVertexAttribPointer index size type normalized stride pointer =>
    { data with
      layouts := (bindings.vertexArrayBinding, index,
        { buffer := bindings.arrayBufferBinding, size := size, type := type,
          normalized := normalized, stride := stride, pointer := pointer }) :: data.layouts }
  | .glEnableVertexAttribArray index =>
    { data with enabled := (bindings.vertexArrayBinding, index) :: data.enabled }
  | .glDeleteBuffers _ buffer =>
    { data with store := data.store.filter (fun entry => entry.1 != buffer) }
  | .glDeleteVertexArrays _ array =>
    { data with
      layouts := data.layouts.filter (fun entry => entry.1 != array),
      enabled := data.enabled.filter (fun entry => entry.1 != array) }
  | _ => data

/-- OpenGL: effect of one call on the context. -/
def glExec (ctx : GLContext) (c : Call) : GLContext :=
  { bindings := glStep ctx.bindings c, data := vertexDataStep ctx.bindings ctx.data c }

/-- Each call of a trace paired with the context in which it is issued. -/
def observeContext : GLContext → List Call → List (Call × GLContext)
  | _, [] => []
  | ctx, c :: rest => (c, ctx) :: observeContext (glExec ctx c) rest

/-- The draw calls of a trace, in order, each with the context in which it is
issued, starting from a fresh context. -/
def drawContexts (trace : List Call) : List (Call × GLContext) :=
  (observeContext GLContext.initial trace).filter (fun p => p.1.isDraw)

/-- Whether a call names a vertex array object or a buffer object, or changes
the vertex data held by one. -/
def Call.touchesVertexObjects : Call → Bool
  | .glGenVertexArrays _ _ => true
  | .glGenBuffers _ _ => true
  | .glBindVertexArray _ => true
  | .glBindBuffer _ _ => true
  | .glBufferData _ _ _ _ => true
  | .glVertexAttribPointer _ _ _ _ _ _ => true
  | .glEnableVertexAttribArray _ => true
  | .glDeleteVertexArrays _ _ => true
  | .glDeleteBuffers _ _ => true
  | _ => false

/-- The vertex data HelloTriangle establishes at setup: `vertices` in the
position buffer, slot 0 of the vertex array object reading it, slot 0
enabled. -/
def HelloTriangle.setupVertexData (env : Env) : VertexData :=
  { store := [(env.VBO, 9 * env.sizeofGLfloat, HelloTriangle.vertices)],
    layouts := [(env.VAO, 0,
      { buffer := env.VBO, size := 3, type := GL_FLOAT, normalized := GL_FALSE,
        stride := 3 * env.sizeofGLfloat, pointer := 0 })],
    enabled := [(env.VAO, 0)] }

/-- The vertex data HelloColorTriangle establishes at setup: `vertices` in the
position buffer and `colors` in the color buffer, slot 0 of the vertex array
object reading the former and slot 1 the latter, both slots enabled. -/
def HelloColorTriangle.setupVertexData (env : Env) : VertexData :=
  { store := [(env.colorsVBO, 9 * env.sizeofGLfloat, HelloColorTriangle.colors),
      (env.VBO, 9 * env.sizeofGLfloat, HelloColorTriangle.vertices)],
    layouts := [(env.VAO, 1,
        { buffer := env.colorsVBO, size := 3, type := GL_FLOAT, normalized := GL_FALSE,
          stride := 3 * env.sizeofGLfloat, pointer := 0 }),
      (env.VAO, 0,
        { buffer := env.VBO, size := 3, type := GL_FLOAT, normalized := GL_FALSE,
          stride := 3 * env.sizeofGLfloat, pointer := 0 })],
    enabled := [(env.VAO, 1), (env.VAO, 0)] }

/-- The calls after setup that touch the vertex array object or a buffer in a
run with `n` frames, as the specification allows them: per frame the binding
and the unbinding of the vertex array object, then the final deletions. -/
def allowedTouches (n : Nat) (VAO : GLuint) (deletions : List Call) : List Call :=
  (List.replicate n [Call.glBindVertexArray VAO, Call.glBindVertexArray 0]).flatten ++
    deletions

/-- Size in bytes of one component of the given type.  `GL_FLOAT` is the only
component type the programs use; its size is `sizeof(GLfloat)`. -/
def componentSize (sizeofGLfloat : Nat) : GLenum → Nat
  | .GL_FLOAT => sizeofGLfloat
  | _ => 0

/-- The bytes one draw call reads from the buffer of one enabled slot: the
first byte read, the distance between consecutive vertices, the position one
past the last byte read, the number of bytes read in total, and the size of
the data store of the buffer (`none` when it has no data store). -/
structure SlotRead where
  slot : GLuint
  start : Nat
  stride : Nat
  stop : Nat
  bytesRead : Nat
  storeSize : Option Nat
  deriving DecidableEq, Repr

/-- OpenGL: the bytes `glDrawArrays(mode, first, count)` reads through a slot
with the given layout.  Vertex `i` (`first ≤ i < first + count`) is read from
`pointer + i * stride`, `size` components long; a stride of 0 stands for
tightly packed vertices. -/
def Layout.read (layout : Layout) (slot : GLuint) (sizeofGLfloat : Nat) (first count : Int)
    (storeSize : Option Nat) : SlotRead :=
  let element := layout.size.toNat * componentSize sizeofGLfloat layout.type
  let stride := if layout.stride = 0 then element else layout.stride
  { slot := slot,
    start := layout.pointer + first.toNat * stride,
    stride := stride,
    stop := if count ≤ 0 then layout.pointer + first.toNat * stride
      else layout.pointer + (first + count - 1).toNat * stride + element,
    bytesRead := count.toNat * element,
    storeSize := storeSize }

/-- OpenGL: what a call reads from buffers when issued in the given context.
A `glDrawArrays` reads, for every enabled slot of the bound vertex array object
that has a layout, from the buffer the layout captured; other calls read
nothing. -/
def drawReads (sizeofGLfloat : Nat) : Call × GLContext → List SlotRead
  | (.glDrawArrays _ first count, ctx) =>
    (ctx.data.enabled.filter (fun e => e.1 == ctx.bindings.vertexArrayBinding)).filterMap
      fun e =>
        (ctx.data.layouts.find? (fun l => l.1 == e.1 && l.2.1 == e.2)).map fun l =>
          l.2.2.read e.2 sizeofGLfloat first count
            ((ctx.data.store.find? (fun b => b.1 == l.2.2.buffer)).map (fun b => b.2.1))
  | _ => []

/-! ## The key handler and the close flag -/

theorem deliver_shouldClose (window : GLFWwindow) (e : Event) :
    (deliver window e).shouldClose = (window.shouldClose || e.closes) := by
  cases e with
  | key k s a m =>
    by_cases h : k = GLFW_KEY_ESCAPE ∧ a = GLFW_PRESS
    · simp [deliver, key_callback, Event.closes, h, glfwSetWindowShouldClose, GL_TRUE]
    · simp [deliver, key_callback, Event.closes, h]
  | closeRequest => simp [deliver, Event.closes]

theorem glfwPollEvents_shouldClose (events : List Event) (window : GLFWwindow) :
    (glfwPollEvents window events).shouldClose =
      (window.shouldClose || events.any Event.closes) := by
  induction events generalizing window with
  | nil => simp [glfwPollEvents]
  | cons e rest ih =>
    have h := ih (deliver window e)
    simp only [glfwPollEvents, List.foldl_cons] at h ⊢
    rw [h, deliver_shouldClose]
    simp [Bool.or_assoc]

theorem renderLoop_exit_isSome (shaderProgram VAO : GLuint) (polls : List (List Event))
    (window : GLFWwindow) :
    (renderLoop shaderProgram VAO window polls).2.isSome =
      (window.shouldClose || closesEventually polls) := by
  induction polls generalizing window with
  | nil =>
    cases h : window.shouldClose <;>
      simp [renderLoop, glfwWindowShouldClose, closesEventually, h]
  | cons events rest ih =>
    cases h : window.shouldClose
    · have h2 := ih (glfwPollEvents window events)
      rw [glfwPollEvents_shouldClose, h] at h2
      simp only [closesEventually] at h2
      simp [renderLoop, glfwWindowShouldClose, closesEventually, h, loopBody, h2]
    · simp [renderLoop, glfwWindowShouldClose, h]

/-- C2. `key_callback`: the close flag becomes true when the key is escape and
the action is press, and no other field of the window changes; for every other
key or action the window is left exactly as it was. -/
theorem key_callback_sets_close_flag_on_escape_press
    (window : GLFWwindow) (key scancode action mode : Int) :
    (key = GLFW_KEY_ESCAPE ∧ action = GLFW_PRESS →
      key_callback window key scancode action mode = { window with shouldClose := true }) ∧
    (¬ (key = GLFW_KEY_ESCAPE ∧ action = GLFW_PRESS) →
      key_callback window key scancode action mode = window) := by
  constructor
  · intro h
    simp [key_callback, h, glfwSetWindowShouldClose, GL_TRUE]
  · intro h
    simp [key_callback, h]

/-- Witness for C2: an escape press on an open 800x600 window closes it and
keeps the other fields; an escape release and a press of another key change
nothing. -/
theorem key_callback_sets_close_flag_on_escape_press_witness :
    key_callback (glfwCreateWindow 800 600 "w" false) 256 9 1 0 =
        { glfwCreateWindow 800 600 "w" false with shouldClose := true } ∧
      key_callback (glfwCreateWindow 800 600 "w" false) 256 9 0 0 =
        glfwCreateWindow 800 600 "w" false ∧
      key_callback (glfwCreateWindow 800 600 "w" false) 65 38 1 0 =
        glfwCreateWindow 800 600 "w" false :=
  ⟨(key_callback_sets_close_flag_on_escape_press _ 256 9 1 0).1 ⟨rfl, rfl⟩,
   (key_callback_sets_close_flag_on_escape_press _ 256 9 0 0).2 (by decide),
   (key_callback_sets_close_flag_on_escape_press _ 65 38 1 0).2 (by decide)⟩

/-! ## Normal form of a run -/

theorem triangle_main_of_init_ok (env : Env) (h : ¬ initFails env) :
    HelloTriangle.main env =
      { trace := HelloTriangle.startup env ++ HelloTriangle.buildShaderProgram env ++
          HelloTriangle.uploadGeometry env ++
          (renderLoop env.shaderProgram env.VAO HelloTriangle.loopWindow env.polls).1 ++
          (if closesEventually env.polls then HelloTriangle.shutdown env else []),
        exit := if closesEventually env.polls then some 0 else none } := by
  have hloop := renderLoop_exit_isSome env.shaderProgram env.VAO env.polls
    HelloTriangle.loopWindow
  simp only [initFails, not_or, not_not] at h
  obtain ⟨h1, h2, h3⟩ := h
  simp only [HelloTriangle.loopWindow, glfwCreateWindow, Bool.false_or] at hloop
  unfold HelloTriangle.main
  simp only [h1, h2, h3, if_false, ne_eq, not_true_eq_false, HelloTriangle.loopWindow,
    glfwCreateWindow]
  cases hr : (renderLoop env.shaderProgram env.VAO
      { width := 800, height := 600, title := "Hello OpenGL", resizable := false,
        keyCallbackSet := true, shouldClose := false } env.polls).2 <;>
    rw [hr] at hloop <;> simp at hloop <;>
    simp [hloop, HelloTriangle.startup, ConfigureGLFW]

theorem gradient_main_of_init_ok (env : Env) (h : ¬ initFails env) :
    HelloColorTriangle.main env =
      { trace := HelloColorTriangle.startup env ++ HelloColorTriangle.buildShaderProgram env ++
          HelloColorTriangle.uploadGeometry env ++
          (renderLoop env.shaderProgram env.VAO HelloColorTriangle.loopWindow env.polls).1 ++
          (if closesEventually env.polls then HelloColorTriangle.shutdown env else []),
        exit := if closesEventually env.polls then some 0 else none } := by
  have hloop := renderLoop_exit_isSome env.shaderProgram env.VAO env.polls
    HelloColorTriangle.loopWindow
  simp only [initFails, not_or, not_not] at h
  obtain ⟨h1, h2, h3⟩ := h
  simp only [HelloColorTriangle.loopWindow, glfwCreateWindow, Bool.false_or] at hloop
  unfold HelloColorTriangle.main
  simp only [h1, h2, h3, if_false, ne_eq, not_true_eq_false, HelloColorTriangle.loopWindow,
    glfwCreateWindow]
  cases hr : (renderLoop env.shaderProgram env.VAO
      { width := 800, height := 600, title := "OpenGL Color Triangle", resizable := false,
        keyCallbackSet := true, shouldClose := false } env.polls).2 <;>
    rw [hr] at hloop <;> simp at hloop <;>
    simp [hloop, HelloColorTriangle.startup, ConfigureGLFW]

theorem triangle_main_of_init_fail (env : Env) (h : initFails env) :
    HelloTriangle.main env =
      if env.glfwInit = 0 then
        { trace := [.glfwInit, .cout ["GLFW Initialization Failed!!"]], exit := some (-1) }
      else if env.windowCreated = false then
        { trace := (HelloTriangle.startup env).take 7 ++
            [.cout ["Failed to create GLFW window"], .glfwTerminate],
          exit := some (-1) }
      else
        { trace := (HelloTriangle.startup env).take 14 ++ [.cout ["Failed to initialize GLEW"]],
          exit := some (-1) } := by
  unfold HelloTriangle.main
  by_cases h1 : env.glfwInit = 0
  · simp [h1]
  · by_cases h2 : env.windowCreated = false
    · simp [h1, h2, HelloTriangle.startup, ConfigureGLFW]
    · have h3 : env.glewInit ≠ GLEW_OK := by
        rcases h with h | h | h
        · exact absurd h h1
        · exact absurd h h2
        · exact h
      simp [h1, h2, h3, HelloTriangle.startup, ConfigureGLFW]

theorem gradient_main_of_init_fail (env : Env) (h : initFails env) :
    HelloColorTriangle.main env =
      if env.glfwInit = 0 then
        { trace := [.glfwInit, .cout ["GLFW Initialization Failed!!"]], exit := some (-1) }
      else if env.windowCreated = false then
        { trace := (HelloColorTriangle.startup env).take 4 ++
            [.cout ["Failed to create GLFW window"], .glfwTerminate],
          exit := some (-1) }
      else
        { trace := (HelloColorTriangle.startup env).take 6 ++
            [.cout ["Failed to initialize GLEW"]],
          exit := some (-1) } := by
  unfold HelloColorTriangle.main
  by_cases h1 : env.glfwInit = 0
  · simp [h1]
  · by_cases h2 : env.windowCreated = false
    · simp [h1, h2, HelloColorTriangle.startup, ConfigureGLFW]
    · have h3 : env.glewInit ≠ GLEW_OK := by
        rcases h with h | h | h
        · exact absurd h h1
        · exact absurd h h2
        · exact h
      simp [h1, h2, h3, HelloColorTriangle.startup, ConfigureGLFW]

/-! ## Return value of `main` -/

/-- C3. In both programs `main` returns -1 exactly when one of the three
initialization steps fails, returns 0 exactly when they all succeed and the
script of events closes the window (the run leaves the render loop), and has
not returned exactly when they succeed and no event closes the window.  The
compile and link statuses and the number of frames play no part. -/
theorem main_return_value (env : Env) :
    ((HelloTriangle.main env).exit = some (-1) ↔ initFails env) ∧
    ((HelloTriangle.main env).exit = some 0 ↔
      ¬ initFails env ∧ closesEventually env.polls = true) ∧
    ((HelloTriangle.main env).exit = none ↔
      ¬ initFails env ∧ closesEventually env.polls = false) ∧
    ((HelloColorTriangle.main env).exit = some (-1) ↔ initFails env) ∧
    ((HelloColorTriangle.main env).exit = some 0 ↔
      ¬ initFails env ∧ closesEventually env.polls = true) ∧
    ((HelloColorTriangle.main env).exit = none ↔
      ¬ initFails env ∧ closesEventually env.polls = false) := by
  by_cases h : initFails env
  · rw [triangle_main_of_init_fail env h, gradient_main_of_init_fail env h]
    refine ⟨?_, ?_, ?_, ?_, ?_, ?_⟩ <;> split_ifs <;> simp [h]
  · rw [triangle_main_of_init_ok env h, gradient_main_of_init_ok env h]
    cases hc : closesEventually env.polls <;> simp [h]

/-! ## Attribute locations of the gradient program -/

/-- C1, evaluated on the code.  In every run `HelloColorTriangle` binds slot 0
to `position` and slot 1 to `color` before `glLinkProgram`.  The inputs its
vertex shader declares are `position` and `vertex_color`; `color` is not one of
them, it is the output (`out` / `varying`) of the vertex shader. -/
theorem gradient_slot_one_bound_to_vertex_output (env : Env) :
    attribBindings ((HelloColorTriangle.buildShaderProgram env).takeWhile
        (fun c => !c.isLink)) = [(0, "position"), (1, "color")] ∧
      attribBindings (HelloColorTriangle.buildShaderProgram env) =
        [(0, "position"), (1, "color")] ∧
      attribBindings (HelloColorTriangle.main sampleEnv).trace =
        [(0, "position"), (1, "color")] ∧
      vertexInputs HelloColorTriangle.vertexShaderSource =
        ["position", "vertex_color", "position", "vertex_color"] ∧
      vertexOutputs HelloColorTriangle.vertexShaderSource = ["color", "color"] ∧
      "color" ∉ vertexInputs HelloColorTriangle.vertexShaderSource := by
  refine ⟨?_, ?_, by decide, by decide, by decide, by decide⟩
  · by_cases hv : env.vertexStatus = 0 <;> by_cases hf : env.fragmentStatus = 0 <;>
      simp [HelloColorTriangle.buildShaderProgram, attribBindings, Call.isLink, hv, hf]
  · by_cases hv : env.vertexStatus = 0 <;> by_cases hf : env.fragmentStatus = 0 <;>
      by_cases hl : env.linkStatus = 0 <;>
      simp [HelloColorTriangle.buildShaderProgram, attribBindings, hv, hf, hl]

/-! ## The render loop, frame by frame -/

theorem passes_succ (n : Nat) (shaderProgram VAO : GLuint) :
    passes (n + 1) shaderProgram VAO =
      Call.glfwWindowShouldClose :: frameCalls shaderProgram VAO ++ passes n shaderProgram VAO := by
  simp [passes, List.replicate_succ]

theorem renderLoop_trace (shaderProgram VAO : GLuint) (polls : List (List Event))
    (window : GLFWwindow) :
    ∃ n, n ≤ polls.length ∧
      (renderLoop shaderProgram VAO window polls).1 =
        passes n shaderProgram VAO ++ [Call.glfwWindowShouldClose] := by
  induction polls generalizing window with
  | nil => exact ⟨0, le_refl _, by simp [renderLoop, passes]⟩
  | cons events rest ih =>
    cases h : window.shouldClose
    · obtain ⟨n, hn, hrest⟩ := ih (glfwPollEvents window events)
      refine ⟨n + 1, by simpa using hn, ?_⟩
      rw [passes_succ]
      simp only [renderLoop, glfwWindowShouldClose, h, loopBody, hrest]
      simp [frameCalls]
    · exact ⟨0, Nat.zero_le _, by simp [renderLoop, glfwWindowShouldClose, h, passes]⟩

theorem filter_isDraw_passes (n : Nat) (shaderProgram VAO : GLuint) :
    (passes n shaderProgram VAO).filter Call.isDraw =
      List.replicate n (Call.glDrawArrays GL_TRIANGLES 0 3) := by
  induction n with
  | zero => simp [passes]
  | succ n ih =>
    rw [passes_succ, List.replicate_succ]
    simp [frameCalls, List.filter_cons, Call.isDraw, ih]

theorem filter_isDraw_of_not_loop (l : List Call) (h : ∀ c ∈ l, c.isLoopCall = false) :
    l.filter Call.isDraw = [] := by
  rw [List.filter_eq_nil_iff]
  intro c hc hd
  have := h c hc
  cases c <;> simp_all [Call.isDraw, Call.isLoopCall]

theorem triangle_outside_loop (env : Env) :
    ∀ c ∈ HelloTriangle.startup env ++ HelloTriangle.buildShaderProgram env ++
        HelloTriangle.uploadGeometry env ++ HelloTriangle.shutdown env,
      c.isLoopCall = false := by
  have hall : (HelloTriangle.startup env ++ HelloTriangle.buildShaderProgram env ++
      HelloTriangle.uploadGeometry env ++ HelloTriangle.shutdown env).all
        (fun c => !c.isLoopCall) = true := by
    by_cases hv : env.vertexStatus = 0 <;> by_cases hf : env.fragmentStatus = 0 <;>
      by_cases hl : env.linkStatus = 0 <;>
      simp [HelloTriangle.startup, HelloTriangle.buildShaderProgram,
        HelloTriangle.uploadGeometry, HelloTriangle.shutdown, hv, hf, hl, Call.isLoopCall]
  intro c hc
  simpa using List.all_eq_true.1 hall c hc

theorem gradient_outside_loop (env : Env) :
    ∀ c ∈ HelloColorTriangle.startup env ++ HelloColorTriangle.buildShaderProgram env ++
        HelloColorTriangle.uploadGeometry env ++ HelloColorTriangle.shutdown env,
      c.isLoopCall = false := by
  have hall : (HelloColorTriangle.startup env ++ HelloColorTriangle.buildShaderProgram env ++
      HelloColorTriangle.uploadGeometry env ++ HelloColorTriangle.shutdown env).all
        (fun c => !c.isLoopCall) = true := by
    by_cases hv : env.vertexStatus = 0 <;> by_cases hf : env.fragmentStatus = 0 <;>
      by_cases hl : env.linkStatus = 0 <;>
      simp [HelloColorTriangle.startup, HelloColorTriangle.buildShaderProgram,
        HelloColorTriangle.uploadGeometry, HelloColorTriangle.shutdown, hv, hf, hl,
        Call.isLoopCall]
  intro c hc
  simpa using List.all_eq_true.1 hall c hc

theorem draws_of_normal_form (before after : List Call) (n : Nat) (shaderProgram VAO : GLuint)
    (hb : ∀ c ∈ before, c.isLoopCall = false) (ha : ∀ c ∈ after, c.isLoopCall = false) :
    before ++ (passes n shaderProgram VAO ++ [Call.glfwWindowShouldClose]) ++ after =
        before ++ passes n shaderProgram VAO ++ Call.glfwWindowShouldClose :: after ∧
      (∀ c ∈ before ++ after, c.isLoopCall = false) ∧
      (before ++ (passes n shaderProgram VAO ++ [Call.glfwWindowShouldClose]) ++ after).filter
        Call.isDraw = List.replicate n (Call.glDrawArrays GL_TRIANGLES 0 3) := by
  refine ⟨by simp, ?_, ?_⟩
  · intro c hc
    rcases List.mem_append.1 hc with hc | hc
    · exact hb c hc
    · exact ha c hc
  · simp only [List.filter_append, filter_isDraw_passes, filter_isDraw_of_not_loop _ hb,
      filter_isDraw_of_not_loop _ ha]
    simp [Call.isDraw]

/-- C4. In a run of either program whose initialization succeeds, the trace is
the calls before the loop, then `n` passes through the loop, each one
evaluation of the loop condition followed by exactly the frame sequence (poll
events, clear color (0.2, 0.3, 0.3, 1.0), clear, use program, bind the vertex
array object, `glDrawArrays(GL_TRIANGLES, 0, 3)`, unbind, swap buffers), then
the last evaluation of the loop condition and the calls after the loop.  No
loop call occurs before or after, so the draw calls of the whole trace are
exactly `n` calls `glDrawArrays(GL_TRIANGLES, 0, 3)`. -/
theorem render_loop_issues_one_draw_per_frame (env : Env) (h : ¬ initFails env) :
    (∃ n before after, n ≤ env.polls.length ∧
      (HelloTriangle.main env).trace =
        before ++ passes n env.shaderProgram env.VAO ++ Call.glfwWindowShouldClose :: after ∧
      (∀ c ∈ before ++ after, c.isLoopCall = false) ∧
      (HelloTriangle.main env).trace.filter Call.isDraw =
        List.replicate n (Call.glDrawArrays GL_TRIANGLES 0 3)) ∧
    (∃ n before after, n ≤ env.polls.length ∧
      (HelloColorTriangle.main env).trace =
        before ++ passes n env.shaderProgram env.VAO ++ Call.glfwWindowShouldClose :: after ∧
      (∀ c ∈ before ++ after, c.isLoopCall = false) ∧
      (HelloColorTriangle.main env).trace.filter Call.isDraw =
        List.replicate n (Call.glDrawArrays GL_TRIANGLES 0 3)) := by
  constructor
  · obtain ⟨n, hn, hloop⟩ :=
      renderLoop_trace env.shaderProgram env.VAO env.polls HelloTriangle.loopWindow
    have hout := triangle_outside_loop env
    have ha : ∀ c ∈ (if closesEventually env.polls then HelloTriangle.shutdown env else []),
        c.isLoopCall = false := by
      intro c hc
      split_ifs at hc
      · exact hout c (List.mem_append_right _ hc)
      · simp at hc
    refine ⟨n, HelloTriangle.startup env ++ HelloTriangle.buildShaderProgram env ++
      HelloTriangle.uploadGeometry env,
      (if closesEventually env.polls then HelloTriangle.shutdown env else []), hn, ?_⟩
    rw [triangle_main_of_init_ok env h, hloop]
    exact draws_of_normal_form _ _ n _ _ (fun c hc => hout c (List.mem_append_left _ hc)) ha
  · obtain ⟨n, hn, hloop⟩ :=
      renderLoop_trace env.shaderProgram env.VAO env.polls HelloColorTriangle.loopWindow
    have hout := gradient_outside_loop env
    have ha : ∀ c ∈
        (if closesEventually env.polls then HelloColorTriangle.shutdown env else []),
        c.isLoopCall = false := by
      intro c hc
      split_ifs at hc
      · exact hout c (List.mem_append_right _ hc)
      · simp at hc
    refine ⟨n, HelloColorTriangle.startup env ++ HelloColorTriangle.buildShaderProgram env ++
      HelloColorTriangle.uploadGeometry env,
      (if closesEventually env.polls then HelloColorTriangle.shutdown env else []), hn, ?_⟩
    rw [gradient_main_of_init_ok env h, hloop]
    exact draws_of_normal_form _ _ n _ _ (fun c hc => hout c (List.mem_append_left _ hc)) ha

/-- Witness for C4 on `sampleEnv`: initialization succeeds there and the draw
calls of both traces are copies of `glDrawArrays(GL_TRIANGLES, 0, 3)`, at most
one per scripted poll. -/
theorem render_loop_issues_one_draw_per_frame_witness :
    ¬ initFails sampleEnv ∧
      (∃ n, n ≤ 3 ∧ (HelloTriangle.main sampleEnv).trace.filter Call.isDraw =
        List.replicate n (Call.glDrawArrays GL_TRIANGLES 0 3)) ∧
      (∃ n, n ≤ 3 ∧ (HelloColorTriangle.main sampleEnv).trace.filter Call.isDraw =
        List.replicate n (Call.glDrawArrays GL_TRIANGLES 0 3)) := by
  have h := render_loop_issues_one_draw_per_frame sampleEnv (by decide)
  obtain ⟨⟨n, _, _, hn, _, _, hd⟩, ⟨m, _, _, hm, _, _, he⟩⟩ := h
  exact ⟨by decide, ⟨n, hn, hd⟩, ⟨m, hm, he⟩⟩

/-! ## Teardown -/

theorem renderLoop_mem (shaderProgram VAO : GLuint) (polls : List (List Event))
    (window : GLFWwindow) (c : Call)
    (hc : c ∈ (renderLoop shaderProgram VAO window polls).1) :
    c ∈ Call.glfwWindowShouldClose :: frameCalls shaderProgram VAO := by
  induction polls generalizing window with
  | nil => simp [renderLoop] at hc; simp [hc]
  | cons events rest ih =>
    cases h : window.shouldClose
    · have hstep : (renderLoop shaderProgram VAO window (events :: rest)).1 =
          Call.glfwWindowShouldClose :: (frameCalls shaderProgram VAO ++
            (renderLoop shaderProgram VAO (glfwPollEvents window events) rest).1) := by
        simp [renderLoop, glfwWindowShouldClose, h, loopBody, frameCalls]
      rw [hstep, List.mem_cons, List.mem_append] at hc
      rcases hc with hc | hc | hc
      · simp [hc]
      · exact List.mem_cons_of_mem _ hc
      · exact ih _ hc
    · simp [renderLoop, glfwWindowShouldClose, h] at hc
      simp [hc]

theorem renderLoop_generated_deleted (shaderProgram VAO : GLuint) (polls : List (List Event))
    (window : GLFWwindow) :
    generated (renderLoop shaderProgram VAO window polls).1 = [] ∧
      deleted (renderLoop shaderProgram VAO window polls).1 = [] ∧
      Call.glfwTerminate ∉ (renderLoop shaderProgram VAO window polls).1 := by
  refine ⟨?_, ?_, ?_⟩
  · rw [generated, List.filterMap_eq_nil_iff]
    intro c hc
    have := renderLoop_mem _ _ _ _ c hc
    simp [frameCalls] at this
    rcases this with h | h | h | h | h | h | h | h | h <;> subst h <;> rfl
  · rw [deleted, List.filterMap_eq_nil_iff]
    intro c hc
    have := renderLoop_mem _ _ _ _ c hc
    simp [frameCalls] at this
    rcases this with h | h | h | h | h | h | h | h | h <;> subst h <;> rfl
  · intro hc
    have := renderLoop_mem _ _ _ _ _ hc
    simp [frameCalls] at this

theorem generated_append (l₁ l₂ : List Call) :
    generated (l₁ ++ l₂) = generated l₁ ++ generated l₂ := by
  simp [generated]

theorem deleted_append (l₁ l₂ : List Call) :
    deleted (l₁ ++ l₂) = deleted l₁ ++ deleted l₂ := by
  simp [deleted]

theorem triangle_before_shutdown (env : Env) (window : GLFWwindow) :
    generated (HelloTriangle.startup env ++ HelloTriangle.buildShaderProgram env ++
        HelloTriangle.uploadGeometry env ++
        (renderLoop env.shaderProgram env.VAO window env.polls).1) =
      [.vertexArray env.VAO, .buffer env.VBO] ∧
    deleted (HelloTriangle.startup env ++ HelloTriangle.buildShaderProgram env ++
        HelloTriangle.uploadGeometry env ++
        (renderLoop env.shaderProgram env.VAO window env.polls).1) = [] ∧
    Call.glfwTerminate ∉ HelloTriangle.startup env ++ HelloTriangle.buildShaderProgram env ++
        HelloTriangle.uploadGeometry env ++
        (renderLoop env.shaderProgram env.VAO window env.polls).1 := by
  obtain ⟨hg, hd, ht⟩ := renderLoop_generated_deleted env.shaderProgram env.VAO env.polls window
  simp only [generated_append, deleted_append, hg, hd, List.mem_append, ht, or_false,
    List.append_nil]
  by_cases hv : env.vertexStatus = 0 <;> by_cases hf : env.fragmentStatus = 0 <;>
    by_cases hl : env.linkStatus = 0 <;>
    simp [HelloTriangle.startup, HelloTriangle.buildShaderProgram, HelloTriangle.uploadGeometry,
      generated, deleted, hv, hf, hl]

theorem gradient_before_shutdown (env : Env) (window : GLFWwindow) :
    generated (HelloColorTriangle.startup env ++ HelloColorTriangle.buildShaderProgram env ++
        HelloColorTriangle.uploadGeometry env ++
        (renderLoop env.shaderProgram env.VAO window env.polls).1) =
      [.vertexArray env.VAO, .buffer env.VBO, .buffer env.colorsVBO] ∧
    deleted (HelloColorTriangle.startup env ++ HelloColorTriangle.buildShaderProgram env ++
        HelloColorTriangle.uploadGeometry env ++
        (renderLoop env.shaderProgram env.VAO window env.polls).1) = [] ∧
    Call.glfwTerminate ∉ HelloColorTriangle.startup env ++
        HelloColorTriangle.buildShaderProgram env ++ HelloColorTriangle.uploadGeometry env ++
        (renderLoop env.shaderProgram env.VAO window env.polls).1 := by
  obtain ⟨hg, hd, ht⟩ := renderLoop_generated_deleted env.shaderProgram env.VAO env.polls window
  simp only [generated_append, deleted_append, hg, hd, List.mem_append, ht, or_false,
    List.append_nil]
  by_cases hv : env.vertexStatus = 0 <;> by_cases hf : env.fragmentStatus = 0 <;>
    by_cases hl : env.linkStatus = 0 <;>
    simp [HelloColorTriangle.startup, HelloColorTriangle.buildShaderProgram,
      HelloColorTriangle.uploadGeometry, generated, deleted, hv, hf, hl]

/-- C5. In a run of either program that leaves the render loop (initialization
succeeds and the event script closes the window), the trace ends with the
deletion of the vertex array object, of the position buffer and, in the
gradient program, of the color buffer, then `glfwTerminate`, then the closing
message.  Everything before that tail, the whole render loop included,
deletes nothing and does not terminate GLFW, and generates exactly those
objects.  So the objects deleted in the run are the objects generated, one
deletion each, and `glfwTerminate` is called once, after the deletions. -/
theorem teardown_releases_each_generated_handle_once (env : Env) (h : ¬ initFails env)
    (hc : closesEventually env.polls = true) :
    (∃ before,
      (HelloTriangle.main env).trace = before ++
        [.glDeleteVertexArrays 1 env.VAO, .glDeleteBuffers 1 env.VBO, .glfwTerminate,
         .cout ["Terminated GLFW..."]] ∧
      (renderLoop env.shaderProgram env.VAO HelloTriangle.loopWindow env.polls).1 <:+ before ∧
      generated before = [.vertexArray env.VAO, .buffer env.VBO] ∧
      deleted before = [] ∧ Call.glfwTerminate ∉ before) ∧
    generated (HelloTriangle.main env).trace = [.vertexArray env.VAO, .buffer env.VBO] ∧
    deleted (HelloTriangle.main env).trace = generated (HelloTriangle.main env).trace ∧
    (HelloTriangle.main env).trace.count .glfwTerminate = 1 ∧
    (∃ before,
      (HelloColorTriangle.main env).trace = before ++
        [.glDeleteVertexArrays 1 env.VAO, .glDeleteBuffers 1 env.VBO,
         .glDeleteBuffers 1 env.colorsVBO, .glfwTerminate, .cout ["Terminated GLFW..."]] ∧
      (renderLoop env.shaderProgram env.VAO HelloColorTriangle.loopWindow env.polls).1
        <:+ before ∧
      generated before = [.vertexArray env.VAO, .buffer env.VBO, .buffer env.colorsVBO] ∧
      deleted before = [] ∧ Call.glfwTerminate ∉ before) ∧
    generated (HelloColorTriangle.main env).trace =
      [.vertexArray env.VAO, .buffer env.VBO, .buffer env.colorsVBO] ∧
    deleted (HelloColorTriangle.main env).trace =
      generated (HelloColorTriangle.main env).trace ∧
    (HelloColorTriangle.main env).trace.count .glfwTerminate = 1 := by
  obtain ⟨tg, td, tt⟩ := triangle_before_shutdown env HelloTriangle.loopWindow
  obtain ⟨gg, gd, gt⟩ := gradient_before_shutdown env HelloColorTriangle.loopWindow
  rw [triangle_main_of_init_ok env h, gradient_main_of_init_ok env h]
  simp only [hc, if_true]
  refine ⟨⟨_, rfl, List.suffix_append _ _, tg, td, tt⟩, ?_, ?_, ?_,
    ⟨_, rfl, List.suffix_append _ _, gg, gd, gt⟩, ?_, ?_, ?_⟩
  · rw [generated_append, tg]; simp [HelloTriangle.shutdown, generated]
  · rw [generated_append, deleted_append, tg, td]
    simp [HelloTriangle.shutdown, generated, deleted]
  · rw [List.count_append, List.count_eq_zero_of_not_mem tt]
    simp [HelloTriangle.shutdown, List.count_cons]
  · rw [generated_append, gg]; simp [HelloColorTriangle.shutdown, generated]
  · rw [generated_append, deleted_append, gg, gd]
    simp [HelloColorTriangle.shutdown, generated, deleted]
  · rw [List.count_append, List.count_eq_zero_of_not_mem gt]
    simp [HelloColorTriangle.shutdown, List.count_cons]

/-- Witness for C5 on `sampleEnv`: initialization succeeds, the script closes
the window, and the deleted objects are the vertex array object 1 and the
buffers generated. -/
theorem teardown_releases_each_generated_handle_once_witness :
    ¬ initFails sampleEnv ∧ closesEventually sampleEnv.polls = true ∧
      deleted (HelloTriangle.main sampleEnv).trace = [.vertexArray 1, .buffer 1] ∧
      deleted (HelloColorTriangle.main sampleEnv).trace =
        [.vertexArray 1, .buffer 1, .buffer 2] := by
  have h := teardown_releases_each_generated_handle_once sampleEnv (by decide) (by decide)
  exact ⟨by decide, by decide, h.2.2.1.trans h.2.1,
    h.2.2.2.2.2.2.1.trans h.2.2.2.2.2.1⟩

/-! ## Shader failures are not fatal -/

theorem renderLoop_filter_diagnostics (shaderProgram VAO : GLuint) (polls : List (List Event))
    (window : GLFWwindow) :
    (renderLoop shaderProgram VAO window polls).1.filter
        (fun c => !c.isLogRetrieval && !c.isShaderDiagnostic) =
      (renderLoop shaderProgram VAO window polls).1 ∧
    (renderLoop shaderProgram VAO window polls).1.filter Call.isShaderDiagnostic = [] := by
  constructor
  · rw [List.filter_eq_self]
    intro c hc
    have := renderLoop_mem _ _ _ _ c hc
    simp [frameCalls] at this
    rcases this with h | h | h | h | h | h | h | h | h <;> subst h <;> rfl
  · rw [List.filter_eq_nil_iff]
    intro c hc
    have := renderLoop_mem _ _ _ _ c hc
    simp [frameCalls] at this
    rcases this with h | h | h | h | h | h | h | h | h <;> subst h <;>
      simp [Call.isShaderDiagnostic]

theorem withAllStatusesTrue_initFails (env : Env) :
    initFails (withAllStatusesTrue env) ↔ initFails env := by
  simp [initFails, withAllStatusesTrue]

theorem triangle_filter_diagnostics (env : Env) :
    (HelloTriangle.startup env ++ HelloTriangle.buildShaderProgram env ++
        HelloTriangle.uploadGeometry env).filter
        (fun c => !c.isLogRetrieval && !c.isShaderDiagnostic) =
      HelloTriangle.startup env ++ HelloTriangle.buildShaderProgram (withAllStatusesTrue env) ++
        HelloTriangle.uploadGeometry env ∧
    (HelloTriangle.startup env ++ HelloTriangle.buildShaderProgram env ++
        HelloTriangle.uploadGeometry env).filter Call.isShaderDiagnostic =
      expectedDiagnostics env ∧
    (HelloTriangle.startup env ++ HelloTriangle.buildShaderProgram env ++
        HelloTriangle.uploadGeometry env).filter Call.isLogRetrieval =
      expectedLogRetrievals env := by
  by_cases hv : env.vertexStatus = 0 <;> by_cases hf : env.fragmentStatus = 0 <;>
    by_cases hl : env.linkStatus = 0 <;>
    simp [HelloTriangle.startup, HelloTriangle.buildShaderProgram, HelloTriangle.uploadGeometry,
      withAllStatusesTrue, Call.isLogRetrieval, Call.isShaderDiagnostic, List.filter_cons,
      expectedDiagnostics, expectedLogRetrievals, hv, hf, hl]

theorem gradient_filter_diagnostics (env : Env) :
    (HelloColorTriangle.startup env ++ HelloColorTriangle.buildShaderProgram env ++
        HelloColorTriangle.uploadGeometry env).filter
        (fun c => !c.isLogRetrieval && !c.isShaderDiagnostic) =
      HelloColorTriangle.startup env ++
        HelloColorTriangle.buildShaderProgram (withAllStatusesTrue env) ++
        HelloColorTriangle.uploadGeometry env ∧
    (HelloColorTriangle.startup env ++ HelloColorTriangle.buildShaderProgram env ++
        HelloColorTriangle.uploadGeometry env).filter Call.isShaderDiagnostic =
      expectedDiagnostics env ∧
    (HelloColorTriangle.startup env ++ HelloColorTriangle.buildShaderProgram env ++
        HelloColorTriangle.uploadGeometry env).filter Call.isLogRetrieval =
      expectedLogRetrievals env := by
  by_cases hv : env.vertexStatus = 0 <;> by_cases hf : env.fragmentStatus = 0 <;>
    by_cases hl : env.linkStatus = 0 <;>
    simp [HelloColorTriangle.startup, HelloColorTriangle.buildShaderProgram,
      HelloColorTriangle.uploadGeometry, withAllStatusesTrue, Call.isLogRetrieval,
      Call.isShaderDiagnostic, List.filter_cons, expectedDiagnostics, expectedLogRetrievals,
      hv, hf, hl]

theorem renderLoop_filter_logRetrieval (shaderProgram VAO : GLuint) (polls : List (List Event))
    (window : GLFWwindow) :
    (renderLoop shaderProgram VAO window polls).1.filter Call.isLogRetrieval = [] := by
  rw [List.filter_eq_nil_iff]
  intro c hc
  have := renderLoop_mem _ _ _ _ c hc
  simp [frameCalls] at this
  rcases this with h | h | h | h | h | h | h | h | h <;> subst h <;>
    simp [Call.isLogRetrieval]

theorem renderLoop_head (shaderProgram VAO : GLuint) (polls : List (List Event))
    (window : GLFWwindow) :
    Call.glfwWindowShouldClose ∈ (renderLoop shaderProgram VAO window polls).1 := by
  cases polls with
  | nil => simp [renderLoop]
  | cons events rest =>
    cases h : window.shouldClose <;> simp [renderLoop, glfwWindowShouldClose, h]

/-- C6. In a run of either program whose initialization succeeds, whatever the
two compile statuses and the link status are: removing the log retrievals and
the shader diagnostics from the trace leaves exactly the trace of the run in
which all three statuses are true, and the return value is the same; the
shader diagnostics printed are one for each status that is false, and so are
the log retrievals; both stages are attached, the program is linked, the
geometry upload is issued in full and the loop condition is evaluated. -/
theorem shader_failures_are_not_fatal (env : Env) (h : ¬ initFails env) :
    ((HelloTriangle.main env).trace.filter
        (fun c => !c.isLogRetrieval && !c.isShaderDiagnostic) =
        (HelloTriangle.main (withAllStatusesTrue env)).trace ∧
      (HelloTriangle.main env).exit = (HelloTriangle.main (withAllStatusesTrue env)).exit ∧
      (HelloTriangle.main env).trace.filter Call.isShaderDiagnostic = expectedDiagnostics env ∧
      (HelloTriangle.main env).trace.filter Call.isLogRetrieval = expectedLogRetrievals env ∧
      Call.glAttachShader env.shaderProgram env.vertexShader ∈ (HelloTriangle.main env).trace ∧
      Call.glAttachShader env.shaderProgram env.fragmentShader ∈
        (HelloTriangle.main env).trace ∧
      Call.glLinkProgram env.shaderProgram ∈ (HelloTriangle.main env).trace ∧
      HelloTriangle.uploadGeometry env <:+: (HelloTriangle.main env).trace ∧
      Call.glfwWindowShouldClose ∈ (HelloTriangle.main env).trace) ∧
    ((HelloColorTriangle.main env).trace.filter
        (fun c => !c.isLogRetrieval && !c.isShaderDiagnostic) =
        (HelloColorTriangle.main (withAllStatusesTrue env)).trace ∧
      (HelloColorTriangle.main env).exit =
        (HelloColorTriangle.main (withAllStatusesTrue env)).exit ∧
      (HelloColorTriangle.main env).trace.filter Call.isShaderDiagnostic =
        expectedDiagnostics env ∧
      (HelloColorTriangle.main env).trace.filter Call.isLogRetrieval =
        expectedLogRetrievals env ∧
      Call.glAttachShader env.shaderProgram env.vertexShader ∈
        (HelloColorTriangle.main env).trace ∧
      Call.glAttachShader env.shaderProgram env.fragmentShader ∈
        (HelloColorTriangle.main env).trace ∧
      Call.glLinkProgram env.shaderProgram ∈ (HelloColorTriangle.main env).trace ∧
      HelloColorTriangle.uploadGeometry env <:+: (HelloColorTriangle.main env).trace ∧
      Call.glfwWindowShouldClose ∈ (HelloColorTriangle.main env).trace) := by
  have h1 : ¬ initFails (withAllStatusesTrue env) := by
    rwa [withAllStatusesTrue_initFails]
  constructor
  · obtain ⟨f1, f2, f3⟩ := triangle_filter_diagnostics env
    obtain ⟨l1, l2⟩ := renderLoop_filter_diagnostics env.shaderProgram env.VAO env.polls
      HelloTriangle.loopWindow
    have l3 := renderLoop_filter_logRetrieval env.shaderProgram env.VAO env.polls
      HelloTriangle.loopWindow
    have hg := renderLoop_head env.shaderProgram env.VAO env.polls HelloTriangle.loopWindow
    rw [triangle_main_of_init_ok env h, triangle_main_of_init_ok _ h1]
    have hs : ∀ c ∈ (if closesEventually env.polls then HelloTriangle.shutdown env else []),
        c.isLogRetrieval = false ∧ c.isShaderDiagnostic = false := by
      intro c hc
      split_ifs at hc
      · simp [HelloTriangle.shutdown] at hc
        rcases hc with hc | hc | hc | hc <;> subst hc <;>
          simp [Call.isLogRetrieval, Call.isShaderDiagnostic]
      · simp at hc
    have hs1 : (if closesEventually env.polls then HelloTriangle.shutdown env else []).filter
        (fun c => !c.isLogRetrieval && !c.isShaderDiagnostic) =
        (if closesEventually env.polls then HelloTriangle.shutdown env else []) := by
      rw [List.filter_eq_self]
      intro c hc
      simp [hs c hc]
    have hs2 : (if closesEventually env.polls then HelloTriangle.shutdown env else []).filter
        Call.isShaderDiagnostic = [] := by
      rw [List.filter_eq_nil_iff]
      intro c hc
      simp [hs c hc]
    have hs3 : (if closesEventually env.polls then HelloTriangle.shutdown env else []).filter
        Call.isLogRetrieval = [] := by
      rw [List.filter_eq_nil_iff]
      intro c hc
      simp [hs c hc]
    refine ⟨?_, rfl, ?_, ?_, ?_, ?_, ?_, ?_, ?_⟩
    · rw [List.filter_append, List.filter_append, f1, l1, hs1]
      rfl
    · rw [List.filter_append, List.filter_append, f2, l2, hs2]
      simp
    · rw [List.filter_append, List.filter_append, f3, l3, hs3]
      simp
    · by_cases hv : env.vertexStatus = 0 <;> by_cases hf : env.fragmentStatus = 0 <;>
        simp [HelloTriangle.buildShaderProgram, hv, hf]
    · by_cases hv : env.vertexStatus = 0 <;> by_cases hf : env.fragmentStatus = 0 <;>
        simp [HelloTriangle.buildShaderProgram, hv, hf]
    · by_cases hv : env.vertexStatus = 0 <;> by_cases hf : env.fragmentStatus = 0 <;>
        simp [HelloTriangle.buildShaderProgram, hv, hf]
    · exact ⟨HelloTriangle.startup env ++ HelloTriangle.buildShaderProgram env,
        (renderLoop env.shaderProgram env.VAO HelloTriangle.loopWindow env.polls).1 ++
          (if closesEventually env.polls then HelloTriangle.shutdown env else []),
        by simp⟩
    · simp [hg]
  · obtain ⟨f1, f2, f3⟩ := gradient_filter_diagnostics env
    obtain ⟨l1, l2⟩ := renderLoop_filter_diagnostics env.shaderProgram env.VAO env.polls
      HelloColorTriangle.loopWindow
    have l3 := renderLoop_filter_logRetrieval env.shaderProgram env.VAO env.polls
      HelloColorTriangle.loopWindow
    have hg := renderLoop_head env.shaderProgram env.VAO env.polls HelloColorTriangle.loopWindow
    rw [gradient_main_of_init_ok env h, gradient_main_of_init_ok _ h1]
    have hs : ∀ c ∈
        (if closesEventually env.polls then HelloColorTriangle.shutdown env else []),
        c.isLogRetrieval = false ∧ c.isShaderDiagnostic = false := by
      intro c hc
      split_ifs at hc
      · simp [HelloColorTriangle.shutdown] at hc
        rcases hc with hc | hc | hc | hc | hc <;> subst hc <;>
          simp [Call.isLogRetrieval, Call.isShaderDiagnostic]
      · simp at hc
    have hs1 : (if closesEventually env.polls then HelloColorTriangle.shutdown env else []).filter
        (fun c => !c.isLogRetrieval && !c.isShaderDiagnostic) =
        (if closesEventually env.polls then HelloColorTriangle.shutdown env else []) := by
      rw [List.filter_eq_self]
      intro c hc
      simp [hs c hc]
    have hs2 : (if closesEventually env.polls then HelloColorTriangle.shutdown env else []).filter
        Call.isShaderDiagnostic = [] := by
      rw [List.filter_eq_nil_iff]
      intro c hc
      simp [hs c hc]
    have hs3 : (if closesEventually env.polls then HelloColorTriangle.shutdown env else []).filter
        Call.isLogRetrieval = [] := by
      rw [List.filter_eq_nil_iff]
      intro c hc
      simp [hs c hc]
    refine ⟨?_, rfl, ?_, ?_, ?_, ?_, ?_, ?_, ?_⟩
    · rw [List.filter_append, List.filter_append, f1, l1, hs1]
      rfl
    · rw [List.filter_append, List.filter_append, f2, l2, hs2]
      simp
    · rw [List.filter_append, List.filter_append, f3, l3, hs3]
      simp
    · by_cases hv : env.vertexStatus = 0 <;> by_cases hf : env.fragmentStatus = 0 <;>
        simp [HelloColorTriangle.buildShaderProgram, hv, hf]
    · by_cases hv : env.vertexStatus = 0 <;> by_cases hf : env.fragmentStatus = 0 <;>
        simp [HelloColorTriangle.buildShaderProgram, hv, hf]
    · by_cases hv : env.vertexStatus = 0 <;> by_cases hf : env.fragmentStatus = 0 <;>
        simp [HelloColorTriangle.buildShaderProgram, hv, hf]
    · exact ⟨HelloColorTriangle.startup env ++ HelloColorTriangle.buildShaderProgram env,
        (renderLoop env.shaderProgram env.VAO HelloColorTriangle.loopWindow env.polls).1 ++
          (if closesEventually env.polls then HelloColorTriangle.shutdown env else []),
        by simp⟩
    · simp [hg]

/-- Witness for C6 on `brokenShaderEnv`, where the vertex compilation and the
link fail: initialization succeeds, exactly those two diagnostics are printed,
and `main` still returns 0. -/
theorem shader_failures_are_not_fatal_witness :
    ¬ initFails brokenShaderEnv ∧
      (HelloTriangle.main brokenShaderEnv).trace.filter Call.isShaderDiagnostic =
        [.cout ["ERROR::SHADER::VERTEX::COMPILATION_FAILED\n",
           "0(3) : error C0000: syntax error"],
         .cout ["ERROR::SHADER::PROGRAM::LINKING_FAILED\n", "link failed"]] ∧
      (HelloColorTriangle.main brokenShaderEnv).exit = some 0 := by
  have h := shader_failures_are_not_fatal brokenShaderEnv (by decide)
  exact ⟨by decide, h.1.2.2.1.trans (by decide), h.2.2.1.trans (by decide)⟩

/-! ## Initialization failures are fatal -/

/-- C7. In a run of either program in which `glfwInit`, `glfwCreateWindow` or
`glewInit` fails, `main` returns -1; the trace ends with one of the three
initialization diagnostics, followed by nothing or by `glfwTerminate` alone;
and every call of the trace is a window or context acquisition call, a `cout`
or `glfwTerminate`: no shader, program, buffer or vertex array call, no
evaluation of the loop condition, no poll, draw or swap. -/
theorem init_failure_returns_before_any_gpu_setup (env : Env) (h : initFails env) :
    ((HelloTriangle.main env).exit = some (-1) ∧
      (∃ before message, message ∈ initDiagnostics ∧
        ((HelloTriangle.main env).trace = before ++ [.cout [message]] ∨
         (HelloTriangle.main env).trace = before ++ [.cout [message], .glfwTerminate])) ∧
      (∀ c ∈ (HelloTriangle.main env).trace, c.isInitCall = true)) ∧
    ((HelloColorTriangle.main env).exit = some (-1) ∧
      (∃ before message, message ∈ initDiagnostics ∧
        ((HelloColorTriangle.main env).trace = before ++ [.cout [message]] ∨
         (HelloColorTriangle.main env).trace =
           before ++ [.cout [message], .glfwTerminate])) ∧
      (∀ c ∈ (HelloColorTriangle.main env).trace, c.isInitCall = true)) := by
  rw [triangle_main_of_init_fail env h, gradient_main_of_init_fail env h]
  by_cases h1 : env.glfwInit = 0
  · rw [if_pos h1, if_pos h1]
    refine ⟨⟨rfl, ⟨[.glfwInit], _, ?_, Or.inl rfl⟩, ?_⟩,
      ⟨rfl, ⟨[.glfwInit], _, ?_, Or.inl rfl⟩, ?_⟩⟩ <;>
      simp [initDiagnostics, Call.isInitCall]
  · by_cases h2 : env.windowCreated = false
    · rw [if_neg h1, if_pos h2, if_neg h1, if_pos h2]
      refine ⟨⟨rfl, ⟨_, _, ?_, Or.inr rfl⟩, ?_⟩,
        ⟨rfl, ⟨_, _, ?_, Or.inr rfl⟩, ?_⟩⟩ <;>
        simp [initDiagnostics, Call.isInitCall, HelloTriangle.startup,
          HelloColorTriangle.startup]
    · rw [if_neg h1, if_neg h2, if_neg h1, if_neg h2]
      refine ⟨⟨rfl, ⟨_, _, ?_, Or.inl rfl⟩, ?_⟩,
        ⟨rfl, ⟨_, _, ?_, Or.inl rfl⟩, ?_⟩⟩ <;>
        simp [initDiagnostics, Call.isInitCall, HelloTriangle.startup,
          HelloColorTriangle.startup]

/-- Witness for C7 on `noWindowEnv`, where `glfwCreateWindow` fails: both
programs return -1 and the HelloColorTriangle trace is the five acquisition
calls, the diagnostic and `glfwTerminate`. -/
theorem init_failure_returns_before_any_gpu_setup_witness :
    initFails noWindowEnv ∧
      (HelloTriangle.main noWindowEnv).exit = some (-1) ∧
      (HelloColorTriangle.main noWindowEnv).exit = some (-1) ∧
      (∀ c ∈ (HelloColorTriangle.main noWindowEnv).trace, c.isInitCall = true) :=
  ⟨by decide, (init_failure_returns_before_any_gpu_setup noWindowEnv (by decide)).1.1,
    (init_failure_returns_before_any_gpu_setup noWindowEnv (by decide)).2.1,
    (init_failure_returns_before_any_gpu_setup noWindowEnv (by decide)).2.2.2⟩

/-! ## Leaving the loop -/

theorem renderLoop_of_closed (shaderProgram VAO : GLuint) (polls : List (List Event))
    (window : GLFWwindow) (h : window.shouldClose = true) :
    (renderLoop shaderProgram VAO window polls).1 = [Call.glfwWindowShouldClose] := by
  cases polls <;> simp [renderLoop, glfwWindowShouldClose, h]

theorem renderLoop_of_open (shaderProgram VAO : GLuint) (events : List Event)
    (rest : List (List Event)) (window : GLFWwindow) (h : window.shouldClose = false) :
    (renderLoop shaderProgram VAO window (events :: rest)).1 =
      Call.glfwWindowShouldClose :: frameCalls shaderProgram VAO ++
        (renderLoop shaderProgram VAO (glfwPollEvents window events) rest).1 := by
  simp [renderLoop, glfwWindowShouldClose, h, loopBody, frameCalls]

theorem renderLoop_last_pass (shaderProgram VAO : GLuint) (before : List (List Event))
    (events : List Event) (after : List (List Event)) (window : GLFWwindow)
    (hw : window.shouldClose = false) (hb : closesEventually before = false)
    (he : events.any Event.closes = true) :
    (renderLoop shaderProgram VAO window (before ++ events :: after)).1 =
      passes (before.length + 1) shaderProgram VAO ++ [Call.glfwWindowShouldClose] := by
  induction before generalizing window with
  | nil =>
    have hc : (glfwPollEvents window events).shouldClose = true := by
      rw [glfwPollEvents_shouldClose, he]; simp
    rw [List.nil_append, renderLoop_of_open _ _ _ _ _ hw, renderLoop_of_closed _ _ _ _ hc]
    simp [passes]
  | cons b bs ih =>
    have hb1 : b.any Event.closes = false ∧ closesEventually bs = false := by
      simpa [closesEventually] using hb
    have hw1 : (glfwPollEvents window b).shouldClose = false := by
      rw [glfwPollEvents_shouldClose, hw, hb1.1]; rfl
    rw [List.cons_append, renderLoop_of_open _ _ _ _ _ hw, ih _ hw1 hb1.2, List.length_cons,
      passes_succ (bs.length + 1)]
    simp

theorem escape_press_closes (events : List Event) (scancode mode : Int)
    (h : Event.key GLFW_KEY_ESCAPE scancode GLFW_PRESS mode ∈ events) :
    events.any Event.closes = true := by
  rw [List.any_eq_true]
  exact ⟨_, h, by simp [Event.closes]⟩

theorem passes_succ_last (n : Nat) (shaderProgram VAO : GLuint) :
    passes (n + 1) shaderProgram VAO =
      passes n shaderProgram VAO ++
        (Call.glfwWindowShouldClose :: frameCalls shaderProgram VAO) := by
  simp [passes, List.replicate_succ']

/-- C8. A pass through the loop starts (events are polled) exactly when the
close flag is false at the evaluation of the loop condition.  In a run of
either program whose initialization succeeds, if the polls before some pass
deliver no closing event and the escape key press is delivered during the poll
of that pass, then that pass is the last: the trace is the setup, the earlier
passes, the loop condition and the complete frame of that pass (draw and swap
included), one more evaluation of the loop condition, and then the shutdown
calls; `main` returns 0.  The polls scripted after that pass play no part. -/
theorem escape_press_ends_loop_after_current_frame (env : Env) (h : ¬ initFails env)
    (before : List (List Event)) (events : List Event) (after : List (List Event))
    (scancode mode : Int)
    (hp : env.polls = before ++ events :: after)
    (hb : closesEventually before = false)
    (he : Event.key GLFW_KEY_ESCAPE scancode GLFW_PRESS mode ∈ events) :
    (∀ (window : GLFWwindow) (evs : List Event) (rest : List (List Event)),
      Call.glfwPollEvents ∈ (renderLoop env.shaderProgram env.VAO window (evs :: rest)).1 ↔
        window.shouldClose = false) ∧
    (∃ setup, (∀ c ∈ setup, c.isLoopCall = false) ∧
      (HelloTriangle.main env).trace =
        setup ++ passes before.length env.shaderProgram env.VAO ++
          (Call.glfwWindowShouldClose :: frameCalls env.shaderProgram env.VAO) ++
          Call.glfwWindowShouldClose :: HelloTriangle.shutdown env) ∧
    (HelloTriangle.main env).exit = some 0 ∧
    (∃ setup, (∀ c ∈ setup, c.isLoopCall = false) ∧
      (HelloColorTriangle.main env).trace =
        setup ++ passes before.length env.shaderProgram env.VAO ++
          (Call.glfwWindowShouldClose :: frameCalls env.shaderProgram env.VAO) ++
          Call.glfwWindowShouldClose :: HelloColorTriangle.shutdown env) ∧
    (HelloColorTriangle.main env).exit = some 0 := by
  have hany := escape_press_closes events scancode mode he
  have hclose : closesEventually env.polls = true := by
    rw [hp]
    simp only [closesEventually, List.any_append, List.any_cons, hany, Bool.true_or,
      Bool.or_true]
  have hloop : ∀ window : GLFWwindow, window.shouldClose = false →
      (renderLoop env.shaderProgram env.VAO window env.polls).1 =
        passes before.length env.shaderProgram env.VAO ++
          (Call.glfwWindowShouldClose :: frameCalls env.shaderProgram env.VAO) ++
          [Call.glfwWindowShouldClose] := by
    intro window hw
    rw [hp, renderLoop_last_pass _ _ before events after window hw hb hany, passes_succ_last]
  refine ⟨?_, ⟨HelloTriangle.startup env ++ HelloTriangle.buildShaderProgram env ++
      HelloTriangle.uploadGeometry env,
      fun c hc => triangle_outside_loop env c (List.mem_append_left _ hc), ?_⟩, ?_,
    ⟨HelloColorTriangle.startup env ++ HelloColorTriangle.buildShaderProgram env ++
      HelloColorTriangle.uploadGeometry env,
      fun c hc => gradient_outside_loop env c (List.mem_append_left _ hc), ?_⟩, ?_⟩
  · intro window evs rest
    cases hw : window.shouldClose
    · rw [renderLoop_of_open _ _ _ _ _ hw]
      simp [frameCalls]
    · rw [renderLoop_of_closed _ _ _ _ hw]
      simp
  · rw [triangle_main_of_init_ok env h, hloop _ rfl, if_pos hclose]
    simp
  · rw [triangle_main_of_init_ok env h]
    simp [hclose]
  · rw [gradient_main_of_init_ok env h, hloop _ rfl, if_pos hclose]
    simp
  · rw [gradient_main_of_init_ok env h]
    simp [hclose]

/-- Witness for C8 on `escapeEnv`: the escape press arrives in the second poll,
after one poll without closing events; both programs return 0 and issue two
draw calls although three polls are scripted. -/
theorem escape_press_ends_loop_after_current_frame_witness :
    ¬ initFails escapeEnv ∧
      escapeEnv.polls = [[.key 65 38 1 0]] ++ [.key 65 38 0 0, .key 256 9 1 0] ::
        [[.key 66 56 1 0]] ∧
      closesEventually [[Event.key 65 38 1 0]] = false ∧
      Event.key GLFW_KEY_ESCAPE 9 GLFW_PRESS 0 ∈ [Event.key 65 38 0 0, .key 256 9 1 0] ∧
      (HelloTriangle.main escapeEnv).exit = some 0 ∧
      (HelloColorTriangle.main escapeEnv).exit = some 0 :=
  ⟨by decide, rfl, by decide, by decide,
    (escape_press_ends_loop_after_current_frame escapeEnv (by decide) [[.key 65 38 1 0]]
      [.key 65 38 0 0, .key 256 9 1 0] [[.key 66 56 1 0]] 9 0 rfl (by decide)
      (by decide)).2.2.1,
    (escape_press_ends_loop_after_current_frame escapeEnv (by decide) [[.key 65 38 1 0]]
      [.key 65 38 0 0, .key 256 9 1 0] [[.key 66 56 1 0]] 9 0 rfl (by decide)
      (by decide)).2.2.2.2⟩

/-! ## Geometry upload -/

theorem observe_append (l₁ l₂ : List Call) (state : GLState) :
    observe state (l₁ ++ l₂) =
      observe state l₁ ++ observe (l₁.foldl glStep state) l₂ := by
  induction l₁ generalizing state with
  | nil => rfl
  | cons c rest ih => simp [observe, ih]

theorem observe_filter_none (p : Call → Bool) (l : List Call) (state : GLState)
    (h : ∀ c ∈ l, p c = false) :
    (observe state l).filter (fun q => p q.1) = [] := by
  induction l generalizing state with
  | nil => rfl
  | cons c rest ih =>
    have hc : p c = false := h c (List.mem_cons_self _ _)
    simp [observe, List.filter_cons, hc, ih _ (fun d hd => h d (List.mem_cons_of_mem _ hd))]

theorem uploadSteps_append_of_none (l₁ l₂ : List Call)
    (h : ∀ c ∈ l₂, c.isUploadStep = false) :
    uploadSteps (l₁ ++ l₂) = uploadSteps l₁ := by
  unfold uploadSteps
  rw [observe_append, List.filter_append, observe_filter_none Call.isUploadStep l₂ _ h,
    List.append_nil]

theorem renderLoop_no_upload (shaderProgram VAO : GLuint) (polls : List (List Event))
    (window : GLFWwindow) :
    ∀ c ∈ (renderLoop shaderProgram VAO window polls).1, c.isUploadStep = false := by
  intro c hc
  have := renderLoop_mem _ _ _ _ c hc
  simp [frameCalls] at this
  rcases this with h | h | h | h | h | h | h | h | h <;> subst h <;> rfl

theorem triangle_uploadSteps (env : Env) :
    uploadSteps (HelloTriangle.startup env ++ HelloTriangle.buildShaderProgram env ++
        HelloTriangle.uploadGeometry env) =
      HelloTriangle.expectedUploadSteps env := by
  by_cases hv : env.vertexStatus = 0 <;> by_cases hf : env.fragmentStatus = 0 <;>
    by_cases hl : env.linkStatus = 0 <;>
    simp [HelloTriangle.startup, HelloTriangle.buildShaderProgram, HelloTriangle.uploadGeometry,
      uploadSteps, observe, glStep, GLState.initial, Call.isUploadStep, List.filter_cons,
      HelloTriangle.expectedUploadSteps, hv, hf, hl] <;> exact Or.inl rfl

theorem gradient_uploadSteps (env : Env) :
    uploadSteps (HelloColorTriangle.startup env ++ HelloColorTriangle.buildShaderProgram env ++
        HelloColorTriangle.uploadGeometry env) =
      HelloColorTriangle.expectedUploadSteps env := by
  by_cases hv : env.vertexStatus = 0 <;> by_cases hf : env.fragmentStatus = 0 <;>
    by_cases hl : env.linkStatus = 0 <;>
    simp [HelloColorTriangle.startup, HelloColorTriangle.buildShaderProgram,
      HelloColorTriangle.uploadGeometry, uploadSteps, observe, glStep, GLState.initial,
      Call.isUploadStep, List.filter_cons, HelloColorTriangle.expectedUploadSteps,
      hv, hf, hl] <;>
    exact ⟨Or.inl rfl, Or.inl rfl⟩

theorem shutdown_no_upload (env : Env) :
    (∀ c ∈ (if closesEventually env.polls then HelloTriangle.shutdown env else []),
      c.isUploadStep = false) ∧
    (∀ c ∈ (if closesEventually env.polls then HelloColorTriangle.shutdown env else []),
      c.isUploadStep = false) := by
  constructor <;> intro c hc <;> split_ifs at hc
  · simp [HelloTriangle.shutdown] at hc
    rcases hc with hc | hc | hc | hc <;> subst hc <;> rfl
  · simp at hc
  · simp [HelloColorTriangle.shutdown] at hc
    rcases hc with hc | hc | hc | hc | hc <;> subst hc <;> rfl
  · simp at hc

/-- C9. In a run of either program whose initialization succeeds, the upload
steps of the whole trace (buffer binds, `glBufferData`, layout declarations,
slot enables), read with the context state each is issued in, are exactly the
prescribed ones: for slot 0 bind the position buffer, copy the 9 floats of
`vertices` with `GL_STATIC_DRAW`, declare slot 0 (3 floats, `GL_FLOAT`, not
normalized, stride `3 * sizeof(GLfloat)`, offset 0) with the position buffer
bound and just filled with `vertices`, enable slot 0; in the gradient program
the same for slot 1 with the color buffer and `colors`.  At every step the
vertex array object is the bound one, and at every layout declaration the
buffer bound to `GL_ARRAY_BUFFER` is the buffer of the latest upload. -/
theorem geometry_upload_binds_copies_declares_enables (env : Env) (h : ¬ initFails env) :
    uploadSteps (HelloTriangle.main env).trace = HelloTriangle.expectedUploadSteps env ∧
    uploadSteps (HelloColorTriangle.main env).trace =
      HelloColorTriangle.expectedUploadSteps env ∧
    (∀ p ∈ uploadSteps (HelloTriangle.main env).trace ++
        uploadSteps (HelloColorTriangle.main env).trace,
      p.2.vertexArrayBinding = env.VAO ∧
      (p.1.isLayoutDeclaration = true →
        ∃ data, p.2.lastUpload = some (p.2.arrayBufferBinding, data))) := by
  have ht : uploadSteps (HelloTriangle.main env).trace =
      HelloTriangle.expectedUploadSteps env := by
    rw [triangle_main_of_init_ok env h]
    simp only []
    rw [uploadSteps_append_of_none _ _ (shutdown_no_upload env).1,
      uploadSteps_append_of_none _ _ (renderLoop_no_upload _ _ _ _), triangle_uploadSteps]
  have hg : uploadSteps (HelloColorTriangle.main env).trace =
      HelloColorTriangle.expectedUploadSteps env := by
    rw [gradient_main_of_init_ok env h]
    simp only []
    rw [uploadSteps_append_of_none _ _ (shutdown_no_upload env).2,
      uploadSteps_append_of_none _ _ (renderLoop_no_upload _ _ _ _), gradient_uploadSteps]
  refine ⟨ht, hg, ?_⟩
  rw [ht, hg]
  intro p hp
  simp only [HelloTriangle.expectedUploadSteps, HelloColorTriangle.expectedUploadSteps,
    List.cons_append, List.nil_append, List.mem_cons, List.mem_singleton, List.not_mem_nil,
    or_false] at hp
  rcases hp with hp | hp | hp | hp | hp | hp | hp | hp | hp | hp | hp | hp | hp | hp <;>
    subst hp <;> simp [Call.isLayoutDeclaration]

/-- Witness for C9 on `sampleEnv` (`sizeof(GLfloat)` = 4, vertex array object 1,
buffers 1 and 2): the layout declarations of the gradient program are issued
with buffer 1 holding `vertices` for slot 0 and buffer 2 holding `colors` for
slot 1. -/
theorem geometry_upload_binds_copies_declares_enables_witness :
    ¬ initFails sampleEnv ∧
      (uploadSteps (HelloColorTriangle.main sampleEnv).trace).filter
          (fun p => p.1.isLayoutDeclaration) =
        [(.glVertexAttribPointer 0 3 GL_FLOAT GL_FALSE 12 0,
            { vertexArrayBinding := 1, arrayBufferBinding := 1,
              lastUpload := some (1, HelloColorTriangle.vertices) }),
         (.glVertexAttribPointer 1 3 GL_FLOAT GL_FALSE 12 0,
            { vertexArrayBinding := 1, arrayBufferBinding := 2,
              lastUpload := some (2, HelloColorTriangle.colors) })] := by
  refine ⟨by decide, ?_⟩
  rw [(geometry_upload_binds_copies_declares_enables sampleEnv (by decide)).2.1]
  decide

/-! ## Release of the shader stages -/

theorem triangle_build_split (env : Env) :
    HelloTriangle.buildShaderProgram env =
        (HelloTriangle.buildShaderProgram env).dropLast.dropLast ++
          [.glDeleteShader env.vertexShader, .glDeleteShader env.fragmentShader] ∧
      createdShaders (HelloTriangle.startup env ++
        (HelloTriangle.buildShaderProgram env).dropLast.dropLast) =
        [env.vertexShader, env.fragmentShader] ∧
      deletedShaders (HelloTriangle.startup env ++
        (HelloTriangle.buildShaderProgram env).dropLast.dropLast) = [] ∧
      generated (HelloTriangle.startup env ++
        (HelloTriangle.buildShaderProgram env).dropLast.dropLast) = [] ∧
      Call.glLinkProgram env.shaderProgram ∈ HelloTriangle.startup env ++
        (HelloTriangle.buildShaderProgram env).dropLast.dropLast ∧
      Call.glGetProgramiv env.shaderProgram GL_LINK_STATUS ∈ HelloTriangle.startup env ++
        (HelloTriangle.buildShaderProgram env).dropLast.dropLast := by
  by_cases hv : env.vertexStatus = 0 <;> by_cases hf : env.fragmentStatus = 0 <;>
    by_cases hl : env.linkStatus = 0 <;>
    simp [HelloTriangle.startup, HelloTriangle.buildShaderProgram, createdShaders,
      deletedShaders, generated, hv, hf, hl, List.dropLast]

theorem triangle_after_build (env : Env) (window : GLFWwindow) :
    ∀ c ∈ HelloTriangle.uploadGeometry env ++
        (renderLoop env.shaderProgram env.VAO window env.polls).1 ++
        (if closesEventually env.polls then HelloTriangle.shutdown env else []),
      c.usesShaderStage = false := by
  intro c hc
  rw [List.mem_append, List.mem_append] at hc
  rcases hc with (hc | hc) | hc
  · simp only [HelloTriangle.uploadGeometry, List.mem_cons, List.mem_singleton, List.not_mem_nil,
      or_false] at hc
    rcases hc with hc | hc | hc | hc | hc | hc | hc | hc | hc <;> subst hc <;> rfl
  · have := renderLoop_mem _ _ _ _ c hc
    simp [frameCalls] at this
    rcases this with h | h | h | h | h | h | h | h | h <;> subst h <;> rfl
  · split_ifs at hc
    · simp only [HelloTriangle.shutdown, List.mem_cons, List.mem_singleton, List.not_mem_nil,
        or_false] at hc
      rcases hc with hc | hc | hc | hc <;> subst hc <;> rfl
    · simp at hc

theorem gradient_build_split (env : Env) :
    HelloColorTriangle.buildShaderProgram env =
        (HelloColorTriangle.buildShaderProgram env).dropLast.dropLast ++
          [.glDeleteShader env.vertexShader, .glDeleteShader env.fragmentShader] ∧
      createdShaders (HelloColorTriangle.startup env ++
        (HelloColorTriangle.buildShaderProgram env).dropLast.dropLast) =
        [env.vertexShader, env.fragmentShader] ∧
      deletedShaders (HelloColorTriangle.startup env ++
        (HelloColorTriangle.buildShaderProgram env).dropLast.dropLast) = [] ∧
      generated (HelloColorTriangle.startup env ++
        (HelloColorTriangle.buildShaderProgram env).dropLast.dropLast) = [] ∧
      Call.glLinkProgram env.shaderProgram ∈ HelloColorTriangle.startup env ++
        (HelloColorTriangle.buildShaderProgram env).dropLast.dropLast ∧
      Call.glGetProgramiv env.shaderProgram GL_LINK_STATUS ∈ HelloColorTriangle.startup env ++
        (HelloColorTriangle.buildShaderProgram env).dropLast.dropLast := by
  by_cases hv : env.vertexStatus = 0 <;> by_cases hf : env.fragmentStatus = 0 <;>
    by_cases hl : env.linkStatus = 0 <;>
    simp [HelloColorTriangle.startup, HelloColorTriangle.buildShaderProgram, createdShaders,
      deletedShaders, generated, hv, hf, hl, List.dropLast]

theorem gradient_after_build (env : Env) (window : GLFWwindow) :
    ∀ c ∈ HelloColorTriangle.uploadGeometry env ++
        (renderLoop env.shaderProgram env.VAO window env.polls).1 ++
        (if closesEventually env.polls then HelloColorTriangle.shutdown env else []),
      c.usesShaderStage = false := by
  intro c hc
  rw [List.mem_append, List.mem_append] at hc
  rcases hc with (hc | hc) | hc
  · simp only [HelloColorTriangle.uploadGeometry, List.mem_cons, List.mem_singleton,
      List.not_mem_nil, or_false] at hc
    rcases hc with hc | hc | hc | hc | hc | hc | hc | hc | hc | hc | hc | hc | hc | hc <;>
      subst hc <;> rfl
  · have := renderLoop_mem _ _ _ _ c hc
    simp [frameCalls] at this
    rcases this with h | h | h | h | h | h | h | h | h <;> subst h <;> rfl
  · split_ifs at hc
    · simp only [HelloColorTriangle.shutdown, List.mem_cons, List.mem_singleton, List.not_mem_nil,
        or_false] at hc
      rcases hc with hc | hc | hc | hc | hc <;> subst hc <;> rfl
    · simp at hc

theorem createdShaders_append (l₁ l₂ : List Call) :
    createdShaders (l₁ ++ l₂) = createdShaders l₁ ++ createdShaders l₂ := by
  simp [createdShaders]

theorem deletedShaders_append (l₁ l₂ : List Call) :
    deletedShaders (l₁ ++ l₂) = deletedShaders l₁ ++ deletedShaders l₂ := by
  simp [deletedShaders]

theorem createdShaders_of_unused (l : List Call) (h : ∀ c ∈ l, c.usesShaderStage = false) :
    createdShaders l = [] := by
  rw [createdShaders, List.filterMap_eq_nil_iff]
  intro c hc
  have := h c hc
  cases c <;> simp_all [Call.usesShaderStage]

theorem deletedShaders_of_unused (l : List Call) (h : ∀ c ∈ l, c.usesShaderStage = false) :
    deletedShaders l = [] := by
  rw [deletedShaders, List.filterMap_eq_nil_iff]
  intro c hc
  have := h c hc
  cases c <;> simp_all [Call.usesShaderStage]

/-- C10. In a run of either program whose initialization succeeds, whatever
the compile and link statuses are, the trace splits as `before`, then
`glDeleteShader(vertexShader)`, `glDeleteShader(fragmentShader)`, then
`after`, where: `before` creates the two stages, deletes no stage, contains
`glLinkProgram` and the `GL_LINK_STATUS` query, and generates no buffer or
vertex array object; `after` opens with the geometry upload and contains no
call that yields or takes a shader-stage object.  So the stages deleted in the
run are the two stages created, one `glDeleteShader` each. -/
theorem shader_stages_deleted_once_after_link (env : Env) (h : ¬ initFails env) :
    ((∃ before after,
      (HelloTriangle.main env).trace = before ++
        [.glDeleteShader env.vertexShader, .glDeleteShader env.fragmentShader] ++ after ∧
      createdShaders before = [env.vertexShader, env.fragmentShader] ∧
      deletedShaders before = [] ∧
      Call.glLinkProgram env.shaderProgram ∈ before ∧
      Call.glGetProgramiv env.shaderProgram GL_LINK_STATUS ∈ before ∧
      generated before = [] ∧
      HelloTriangle.uploadGeometry env <+: after ∧
      (∀ c ∈ after, c.usesShaderStage = false)) ∧
    createdShaders (HelloTriangle.main env).trace = [env.vertexShader, env.fragmentShader] ∧
    deletedShaders (HelloTriangle.main env).trace =
      createdShaders (HelloTriangle.main env).trace) ∧
    ((∃ before after,
      (HelloColorTriangle.main env).trace = before ++
        [.glDeleteShader env.vertexShader, .glDeleteShader env.fragmentShader] ++ after ∧
      createdShaders before = [env.vertexShader, env.fragmentShader] ∧
      deletedShaders before = [] ∧
      Call.glLinkProgram env.shaderProgram ∈ before ∧
      Call.glGetProgramiv env.shaderProgram GL_LINK_STATUS ∈ before ∧
      generated before = [] ∧
      HelloColorTriangle.uploadGeometry env <+: after ∧
      (∀ c ∈ after, c.usesShaderStage = false)) ∧
    createdShaders (HelloColorTriangle.main env).trace =
      [env.vertexShader, env.fragmentShader] ∧
    deletedShaders (HelloColorTriangle.main env).trace =
      createdShaders (HelloColorTriangle.main env).trace) := by
  refine ⟨?_, ?_⟩
  · obtain ⟨hsplit, hcreated, hdeleted, hgen, hlink, hcheck⟩ := triangle_build_split env
    have hafter := triangle_after_build env HelloTriangle.loopWindow
    have htrace : (HelloTriangle.main env).trace =
        (HelloTriangle.startup env ++ (HelloTriangle.buildShaderProgram env).dropLast.dropLast) ++
          [.glDeleteShader env.vertexShader, .glDeleteShader env.fragmentShader] ++
          (HelloTriangle.uploadGeometry env ++
            (renderLoop env.shaderProgram env.VAO HelloTriangle.loopWindow env.polls).1 ++
            (if closesEventually env.polls then HelloTriangle.shutdown env else [])) := by
      rw [triangle_main_of_init_ok env h]
      simp only []
      conv_lhs => rw [hsplit]
      simp only [List.append_assoc]
    refine ⟨⟨HelloTriangle.startup env ++
        (HelloTriangle.buildShaderProgram env).dropLast.dropLast,
      HelloTriangle.uploadGeometry env ++
        (renderLoop env.shaderProgram env.VAO HelloTriangle.loopWindow env.polls).1 ++
        (if closesEventually env.polls then HelloTriangle.shutdown env else []),
      htrace, hcreated, hdeleted, hlink, hcheck, hgen,
      (List.prefix_append _ _).trans (List.prefix_append _ _), hafter⟩, ?_, ?_⟩
    · rw [htrace, createdShaders_append, createdShaders_append, hcreated,
        createdShaders_of_unused _ hafter]
      rfl
    · rw [htrace, createdShaders_append, createdShaders_append, deletedShaders_append,
        deletedShaders_append, hcreated, hdeleted, createdShaders_of_unused _ hafter,
        deletedShaders_of_unused _ hafter]
      rfl
  · obtain ⟨hsplit, hcreated, hdeleted, hgen, hlink, hcheck⟩ := gradient_build_split env
    have hafter := gradient_after_build env HelloColorTriangle.loopWindow
    have htrace : (HelloColorTriangle.main env).trace =
        (HelloColorTriangle.startup env ++
          (HelloColorTriangle.buildShaderProgram env).dropLast.dropLast) ++
          [.glDeleteShader env.vertexShader, .glDeleteShader env.fragmentShader] ++
          (HelloColorTriangle.uploadGeometry env ++
            (renderLoop env.shaderProgram env.VAO HelloColorTriangle.loopWindow env.polls).1 ++
            (if closesEventually env.polls then HelloColorTriangle.shutdown env else [])) := by
      rw [gradient_main_of_init_ok env h]
      simp only []
      conv_lhs => rw [hsplit]
      simp only [List.append_assoc]
    refine ⟨⟨HelloColorTriangle.startup env ++
        (HelloColorTriangle.buildShaderProgram env).dropLast.dropLast,
      HelloColorTriangle.uploadGeometry env ++
        (renderLoop env.shaderProgram env.VAO HelloColorTriangle.loopWindow env.polls).1 ++
        (if closesEventually env.polls then HelloColorTriangle.shutdown env else []),
      htrace, hcreated, hdeleted, hlink, hcheck, hgen,
      (List.prefix_append _ _).trans (List.prefix_append _ _), hafter⟩, ?_, ?_⟩
    · rw [htrace, createdShaders_append, createdShaders_append, hcreated,
        createdShaders_of_unused _ hafter]
      rfl
    · rw [htrace, createdShaders_append, createdShaders_append, deletedShaders_append,
        deletedShaders_append, hcreated, hdeleted, createdShaders_of_unused _ hafter,
        deletedShaders_of_unused _ hafter]
      rfl

/-- Witness for C10 on `brokenShaderEnv`, where the vertex compilation and the
link fail: initialization succeeds and each program deletes the stages 1 and
2, once each. -/
theorem shader_stages_deleted_once_after_link_witness :
    ¬ initFails brokenShaderEnv ∧
      deletedShaders (HelloTriangle.main brokenShaderEnv).trace = [1, 2] ∧
      deletedShaders (HelloColorTriangle.main brokenShaderEnv).trace = [1, 2] := by
  have h := shader_stages_deleted_once_after_link brokenShaderEnv (by decide)
  exact ⟨by decide, h.1.2.2.trans h.1.2.1, h.2.2.2.trans h.2.2.1⟩

/-! ## Vertex data after setup -/

theorem observeContext_append (l₁ l₂ : List Call) (ctx : GLContext) :
    observeContext ctx (l₁ ++ l₂) =
      observeContext ctx l₁ ++ observeContext (l₁.foldl glExec ctx) l₂ := by
  induction l₁ generalizing ctx with
  | nil => rfl
  | cons c rest ih => simp [observeContext, ih]

theorem observeContext_filter_none (p : Call → Bool) (l : List Call) (ctx : GLContext)
    (h : ∀ c ∈ l, p c = false) :
    (observeContext ctx l).filter (fun q => p q.1) = [] := by
  induction l generalizing ctx with
  | nil => rfl
  | cons c rest ih =>
    have hc : p c = false := h c (List.mem_cons_self _ _)
    simp [observeContext, List.filter_cons, hc,
      ih _ (fun d hd => h d (List.mem_cons_of_mem _ hd))]

theorem observeContext_passes (n : Nat) (shaderProgram VAO : GLuint) (rest : List Call)
    (ctx : GLContext) (h0 : ctx.bindings.vertexArrayBinding = 0) :
    (observeContext ctx (passes n shaderProgram VAO ++ rest)).filter (fun q => q.1.isDraw) =
      List.replicate n (Call.glDrawArrays GL_TRIANGLES 0 3,
        { ctx with bindings := { ctx.bindings with vertexArrayBinding := VAO } }) ++
      (observeContext ctx rest).filter (fun q => q.1.isDraw) := by
  induction n with
  | zero => simp [passes]
  | succ n ih =>
    obtain ⟨⟨va, ab, lu⟩, d⟩ := ctx
    simp only at h0
    subst h0
    rw [passes_succ, List.replicate_succ]
    simp only [List.cons_append, List.append_assoc, frameCalls, observeContext, glExec, glStep,
      vertexDataStep, List.filter_cons, Call.isDraw]
    simpa using ih

theorem filter_touches_passes (n : Nat) (shaderProgram VAO : GLuint) :
    (passes n shaderProgram VAO).filter Call.touchesVertexObjects =
      (List.replicate n [Call.glBindVertexArray VAO, Call.glBindVertexArray 0]).flatten := by
  induction n with
  | zero => simp [passes]
  | succ n ih =>
    rw [passes_succ, List.replicate_succ]
    simp [frameCalls, List.filter_cons, Call.touchesVertexObjects, ih]

theorem triangle_setup_context (env : Env) :
    (HelloTriangle.startup env ++ HelloTriangle.buildShaderProgram env ++
        HelloTriangle.uploadGeometry env).foldl glExec GLContext.initial =
      { bindings :=
          { vertexArrayBinding := 0, arrayBufferBinding := 0,
            lastUpload := some (env.VBO, HelloTriangle.vertices) },
        data := HelloTriangle.setupVertexData env } := by
  by_cases hv : env.vertexStatus = 0 <;> by_cases hf : env.fragmentStatus = 0 <;>
    by_cases hl : env.linkStatus = 0 <;>
    simp [HelloTriangle.startup, HelloTriangle.buildShaderProgram, HelloTriangle.uploadGeometry,
      HelloTriangle.setupVertexData, glExec, glStep, vertexDataStep, GLContext.initial,
      GLState.initial, hv, hf, hl] <;>
    exact Or.inl rfl

theorem gradient_setup_context (env : Env) :
    (HelloColorTriangle.startup env ++ HelloColorTriangle.buildShaderProgram env ++
        HelloColorTriangle.uploadGeometry env).foldl glExec GLContext.initial =
      { bindings :=
          { vertexArrayBinding := 0, arrayBufferBinding := 0,
            lastUpload := some (env.colorsVBO, HelloColorTriangle.colors) },
        data := HelloColorTriangle.setupVertexData env } := by
  by_cases hv : env.vertexStatus = 0 <;> by_cases hf : env.fragmentStatus = 0 <;>
    by_cases hl : env.linkStatus = 0 <;>
    simp [HelloColorTriangle.startup, HelloColorTriangle.buildShaderProgram,
      HelloColorTriangle.uploadGeometry, HelloColorTriangle.setupVertexData, glExec, glStep,
      vertexDataStep, GLContext.initial, GLState.initial, hv, hf, hl] <;>
    exact ⟨Or.inl rfl, Or.inl rfl⟩

theorem isDraw_of_not_loop (c : Call) (h : c.isLoopCall = false) : c.isDraw = false := by
  cases c <;> simp_all [Call.isDraw, Call.isLoopCall]

theorem drawContexts_of_normal_form (setup tail : List Call) (n : Nat)
    (shaderProgram VAO : GLuint) (ctx : GLContext)
    (hs : setup.foldl glExec GLContext.initial = ctx)
    (h0 : ctx.bindings.vertexArrayBinding = 0)
    (hsetup : ∀ c ∈ setup, c.isLoopCall = false)
    (htail : ∀ c ∈ tail, c.isLoopCall = false) :
    drawContexts (setup ++ (passes n shaderProgram VAO ++ [Call.glfwWindowShouldClose]) ++
        tail) =
      List.replicate n (Call.glDrawArrays GL_TRIANGLES 0 3,
        { ctx with bindings := { ctx.bindings with vertexArrayBinding := VAO } }) := by
  have h1 : ∀ c ∈ setup, c.isDraw = false := fun c hc => isDraw_of_not_loop c (hsetup c hc)
  have h2 : ∀ c ∈ Call.glfwWindowShouldClose :: tail, c.isDraw = false := by
    intro c hc
    rcases List.mem_cons.1 hc with hc | hc
    · subst hc; rfl
    · exact isDraw_of_not_loop c (htail c hc)
  unfold drawContexts
  rw [List.append_assoc, observeContext_append, List.filter_append,
    observeContext_filter_none Call.isDraw setup _ h1, hs, List.nil_append, List.append_assoc,
    observeContext_passes n shaderProgram VAO _ ctx h0, List.singleton_append,
    observeContext_filter_none Call.isDraw _ _ h2, List.append_nil]

theorem touches_of_normal_form (tail : List Call) (n : Nat) (shaderProgram VAO : GLuint) :
    ((passes n shaderProgram VAO ++ [Call.glfwWindowShouldClose]) ++ tail).filter
        Call.touchesVertexObjects =
      allowedTouches n VAO (tail.filter Call.touchesVertexObjects) := by
  simp [List.filter_append, filter_touches_passes, allowedTouches, Call.touchesVertexObjects]

/-- C11. In a run of either program whose initialization succeeds the trace
splits into `setup`, which ends with the geometry upload and so with the
unbinding of `GL_ARRAY_BUFFER` and of the vertex array object, and `later`.
No call of `later` binds or fills a buffer, declares a layout or enables a
slot (the programs have no call that disables one).  The calls of `later` that
name a vertex array object or a buffer are, for `n` frames, `n` times the
binding and unbinding of the vertex array object, followed by the final
deletions when the loop is left.  The run has `n` draw calls, and each is
issued with the vertex array object bound and with the data stores, slot
layouts and enabled slots exactly as `setup` left them. -/
theorem vertex_data_unchanged_after_setup (env : Env) (h : ¬ initFails env) :
    (∃ setup later n,
      (HelloTriangle.main env).trace = setup ++ later ∧
      HelloTriangle.uploadGeometry env <:+ setup ∧
      [Call.glBindBuffer GL_ARRAY_BUFFER 0, Call.glBindVertexArray 0] <:+ setup ∧
      (setup.foldl glExec GLContext.initial).data = HelloTriangle.setupVertexData env ∧
      (∀ c ∈ later, c.isUploadStep = false) ∧
      later.filter Call.touchesVertexObjects =
        allowedTouches n env.VAO
          (if closesEventually env.polls then
            [.glDeleteVertexArrays 1 env.VAO, .glDeleteBuffers 1 env.VBO]
           else []) ∧
      (drawContexts (HelloTriangle.main env).trace).length = n ∧
      (∀ p ∈ drawContexts (HelloTriangle.main env).trace,
        p.2.bindings.vertexArrayBinding = env.VAO ∧
          p.2.data = HelloTriangle.setupVertexData env)) ∧
    (∃ setup later n,
      (HelloColorTriangle.main env).trace = setup ++ later ∧
      HelloColorTriangle.uploadGeometry env <:+ setup ∧
      [Call.glBindBuffer GL_ARRAY_BUFFER 0, Call.glBindVertexArray 0] <:+ setup ∧
      (setup.foldl glExec GLContext.initial).data = HelloColorTriangle.setupVertexData env ∧
      (∀ c ∈ later, c.isUploadStep = false) ∧
      later.filter Call.touchesVertexObjects =
        allowedTouches n env.VAO
          (if closesEventually env.polls then
            [.glDeleteVertexArrays 1 env.VAO, .glDeleteBuffers 1 env.VBO,
             .glDeleteBuffers 1 env.colorsVBO]
           else []) ∧
      (drawContexts (HelloColorTriangle.main env).trace).length = n ∧
      (∀ p ∈ drawContexts (HelloColorTriangle.main env).trace,
        p.2.bindings.vertexArrayBinding = env.VAO ∧
          p.2.data = HelloColorTriangle.setupVertexData env)) := by
  refine ⟨?_, ?_⟩
  · obtain ⟨n, _, hloop⟩ :=
      renderLoop_trace env.shaderProgram env.VAO env.polls HelloTriangle.loopWindow
    have hout := triangle_outside_loop env
    have htail : ∀ c ∈ (if closesEventually env.polls then HelloTriangle.shutdown env else []),
        c.isLoopCall = false := by
      intro c hc
      split_ifs at hc
      · exact hout c (List.mem_append_right _ hc)
      · simp at hc
    have hdraws := drawContexts_of_normal_form _ _ n env.shaderProgram env.VAO _
      (triangle_setup_context env) rfl (fun c hc => hout c (List.mem_append_left _ hc)) htail
    have htrace : (HelloTriangle.main env).trace =
        HelloTriangle.startup env ++ HelloTriangle.buildShaderProgram env ++
          HelloTriangle.uploadGeometry env ++
          ((passes n env.shaderProgram env.VAO ++ [Call.glfwWindowShouldClose]) ++
            (if closesEventually env.polls then HelloTriangle.shutdown env else [])) := by
      rw [triangle_main_of_init_ok env h, hloop]
      simp only [List.append_assoc]
    refine ⟨_, _, n, htrace, List.suffix_append _ _,
      (show _ <:+ HelloTriangle.uploadGeometry env from
        ⟨(HelloTriangle.uploadGeometry env).take 7, rfl⟩).trans
        (List.suffix_append _ _), ?_, ?_, ?_, ?_, ?_⟩
    · rw [triangle_setup_context]
    · intro c hc
      rcases List.mem_append.1 hc with hc | hc
      · rw [← hloop] at hc
        exact renderLoop_no_upload _ _ _ _ c hc
      · exact (shutdown_no_upload env).1 c hc
    · rw [touches_of_normal_form]
      congr 1
      split_ifs <;> simp [HelloTriangle.shutdown, Call.touchesVertexObjects]
    · rw [htrace, ← List.append_assoc, hdraws, List.length_replicate]
    · intro p hp
      rw [htrace, ← List.append_assoc, hdraws] at hp
      rw [List.eq_of_mem_replicate hp]
      exact ⟨rfl, rfl⟩
  · obtain ⟨n, _, hloop⟩ :=
      renderLoop_trace env.shaderProgram env.VAO env.polls HelloColorTriangle.loopWindow
    have hout := gradient_outside_loop env
    have htail : ∀ c ∈
        (if closesEventually env.polls then HelloColorTriangle.shutdown env else []),
        c.isLoopCall = false := by
      intro c hc
      split_ifs at hc
      · exact hout c (List.mem_append_right _ hc)
      · simp at hc
    have hdraws := drawContexts_of_normal_form _ _ n env.shaderProgram env.VAO _
      (gradient_setup_context env) rfl (fun c hc => hout c (List.mem_append_left _ hc)) htail
    have htrace : (HelloColorTriangle.main env).trace =
        HelloColorTriangle.startup env ++ HelloColorTriangle.buildShaderProgram env ++
          HelloColorTriangle.uploadGeometry env ++
          ((passes n env.shaderProgram env.VAO ++ [Call.glfwWindowShouldClose]) ++
            (if closesEventually env.polls then HelloColorTriangle.shutdown env else [])) := by
      rw [gradient_main_of_init_ok env h, hloop]
      simp only [List.append_assoc]
    refine ⟨_, _, n, htrace, List.suffix_append _ _,
      (show _ <:+ HelloColorTriangle.uploadGeometry env from
        ⟨(HelloColorTriangle.uploadGeometry env).take 12, rfl⟩).trans
        (List.suffix_append _ _), ?_, ?_, ?_, ?_, ?_⟩
    · rw [gradient_setup_context]
    · intro c hc
      rcases List.mem_append.1 hc with hc | hc
      · rw [← hloop] at hc
        exact renderLoop_no_upload _ _ _ _ c hc
      · exact (shutdown_no_upload env).2 c hc
    · rw [touches_of_normal_form]
      congr 1
      split_ifs <;> simp [HelloColorTriangle.shutdown, Call.touchesVertexObjects]
    · rw [htrace, ← List.append_assoc, hdraws, List.length_replicate]
    · intro p hp
      rw [htrace, ← List.append_assoc, hdraws] at hp
      rw [List.eq_of_mem_replicate hp]
      exact ⟨rfl, rfl⟩

/-- Witness for C11 on `sampleEnv`: initialization succeeds and every draw call
of the gradient program is issued with vertex array object 1 bound and the
vertex data of setup. -/
theorem vertex_data_unchanged_after_setup_witness :
    ¬ initFails sampleEnv ∧
      (∀ p ∈ drawContexts (HelloColorTriangle.main sampleEnv).trace,
        p.2.bindings.vertexArrayBinding = 1 ∧
          p.2.data = HelloColorTriangle.setupVertexData sampleEnv) := by
  obtain ⟨_, _, _, _, _, _, _, _, _, _, h⟩ :=
    (vertex_data_unchanged_after_setup sampleEnv (by decide)).2
  exact ⟨by decide, h⟩

/-! ## Bytes read by a draw call -/

theorem triangle_draw_contexts (env : Env) (h : ¬ initFails env) :
    ∀ p ∈ drawContexts (HelloTriangle.main env).trace,
      p = (Call.glDrawArrays GL_TRIANGLES 0 3,
        { bindings :=
            { vertexArrayBinding := env.VAO, arrayBufferBinding := 0,
              lastUpload := some (env.VBO, HelloTriangle.vertices) },
          data := HelloTriangle.setupVertexData env }) := by
  obtain ⟨n, _, hloop⟩ :=
    renderLoop_trace env.shaderProgram env.VAO env.polls HelloTriangle.loopWindow
  have hout := triangle_outside_loop env
  have htail : ∀ c ∈ (if closesEventually env.polls then HelloTriangle.shutdown env else []),
      c.isLoopCall = false := by
    intro c hc
    split_ifs at hc
    · exact hout c (List.mem_append_right _ hc)
    · simp at hc
  have hdraws := drawContexts_of_normal_form _ _ n env.shaderProgram env.VAO _
    (triangle_setup_context env) rfl (fun c hc => hout c (List.mem_append_left _ hc)) htail
  intro p hp
  rw [triangle_main_of_init_ok env h, hloop] at hp
  simp only [] at hp
  rw [hdraws] at hp
  exact List.eq_of_mem_replicate hp

theorem gradient_draw_contexts (env : Env) (h : ¬ initFails env) :
    ∀ p ∈ drawContexts (HelloColorTriangle.main env).trace,
      p = (Call.glDrawArrays GL_TRIANGLES 0 3,
        { bindings :=
            { vertexArrayBinding := env.VAO, arrayBufferBinding := 0,
              lastUpload := some (env.colorsVBO, HelloColorTriangle.colors) },
          data := HelloColorTriangle.setupVertexData env }) := by
  obtain ⟨n, _, hloop⟩ :=
    renderLoop_trace env.shaderProgram env.VAO env.polls HelloColorTriangle.loopWindow
  have hout := gradient_outside_loop env
  have htail : ∀ c ∈
      (if closesEventually env.polls then HelloColorTriangle.shutdown env else []),
      c.isLoopCall = false := by
    intro c hc
    split_ifs at hc
    · exact hout c (List.mem_append_right _ hc)
    · simp at hc
  have hdraws := drawContexts_of_normal_form _ _ n env.shaderProgram env.VAO _
    (gradient_setup_context env) rfl (fun c hc => hout c (List.mem_append_left _ hc)) htail
  intro p hp
  rw [gradient_main_of_init_ok env h, hloop] at hp
  simp only [] at hp
  rw [hdraws] at hp
  exact List.eq_of_mem_replicate hp

/-- C12. With `sizeof(GLfloat)` = 4, in a run of either program whose
initialization succeeds every draw call reads, through each enabled slot (slot
0, and slot 1 in the gradient program), the bytes from 0 up to
`(3 - 1) * 12 + 3 * 4 = 36` of the slot's buffer, 12 bytes apart per vertex,
36 bytes in all; the data store of that buffer is 36 bytes (the 9 floats
uploaded).  So the whole array is read and nothing past its end. -/
theorem draw_reads_exactly_the_uploaded_bytes (env : Env) (h : ¬ initFails env)
    (hsz : env.sizeofGLfloat = 4) :
    (∀ p ∈ drawContexts (HelloTriangle.main env).trace,
      drawReads env.sizeofGLfloat p =
        [{ slot := 0, start := 0, stride := 12, stop := 36, bytesRead := 36,
           storeSize := some 36 }]) ∧
    (∀ p ∈ drawContexts (HelloColorTriangle.main env).trace,
      drawReads env.sizeofGLfloat p =
        [{ slot := 1, start := 0, stride := 12, stop := 36, bytesRead := 36,
           storeSize := some 36 },
         { slot := 0, start := 0, stride := 12, stop := 36, bytesRead := 36,
           storeSize := some 36 }]) := by
  constructor
  · intro p hp
    rw [triangle_draw_contexts env h p hp]
    simp [drawReads, HelloTriangle.setupVertexData, Layout.read, componentSize, hsz, GL_FALSE]
  · intro p hp
    rw [gradient_draw_contexts env h p hp]
    by_cases hb : env.colorsVBO = env.VBO <;>
      simp [drawReads, HelloColorTriangle.setupVertexData, Layout.read, componentSize, hsz,
        GL_FALSE, hb]

/-- Witness for C12 on `sampleEnv`, where `sizeof(GLfloat)` is 4 and the loop
runs two frames: both draw calls of HelloTriangle read bytes 0 to 36 of a
36-byte data store through slot 0. -/
theorem draw_reads_exactly_the_uploaded_bytes_witness :
    ¬ initFails sampleEnv ∧ sampleEnv.sizeofGLfloat = 4 ∧
      (drawContexts (HelloTriangle.main sampleEnv).trace).length = 2 ∧
      (∀ p ∈ drawContexts (HelloTriangle.main sampleEnv).trace,
        drawReads 4 p =
          [{ slot := 0, start := 0, stride := 12, stop := 36, bytesRead := 36,
             storeSize := some 36 }]) :=
  ⟨by decide, rfl, by decide,
    (draw_reads_exactly_the_uploaded_bytes sampleEnv (by decide) rfl).1⟩

end HelloTriangleLegacy
